import Mathlib

/-!
Verification of the dectalk-bot core against its specification.

The development shallowly embeds the two algorithmic subsystems of the
repository:

* `src/dectalk.rs` — deterministic procedural synthesis of a DECtalk voice
  profile from `(player_id, seed)`, built on the Keccak-f[1600] permutation
  (the `tiny_keccak::keccakf` dependency) and per-parameter saturating range
  constants derived from the PAUL and WENDY reference presets;
* `src/main.rs` — RIFF/WAVE duration analysis (`get_wav_duration`) and
  peak-based volume normalization (`normalize_wav_volume`).

Machine integers are embedded as `Nat` (or `Int` for signed samples) with
explicit `% 2 ^ w` reductions at the points where the Rust code truncates.
Byte buffers are `List Nat`.  Fallible Rust code returning `Option`/`Result`
is embedded as `Option`; the one reachable panic (out-of-bounds slicing of
the fmt payload) is made explicit by a dedicated outcome constructor.
-/

/-- Left rotation of a 64-bit word, as `u64::rotate_left`.  The left shift is
reduced mod `2 ^ 64`, matching the wrapping behaviour of the machine type. -/
def rotl64 (x n : Nat) : Nat :=
  (x <<< (n % 64)) % 2 ^ 64 ||| x >>> (64 - n % 64)

/-- Bitwise complement of a 64-bit word (`!x` on `u64`). -/
def bnot64 (x : Nat) : Nat :=
  x ^^^ (2 ^ 64 - 1)

/-- Lane lookup in a Keccak state (a 25-element list of 64-bit words). -/
def kget (a : List Nat) (n : Nat) : Nat :=
  a.getD n 0

/-- Rotation offsets of the rho step, in the flat-index order used by
`tiny_keccak::keccakf`. -/
def RHO : List Nat :=
  [1, 3, 6, 10, 15, 21, 28, 36, 45, 55, 2, 14, 27, 41, 56, 8, 25, 43, 62, 18, 39, 61, 20, 44]

/-- Lane permutation of the pi step, in the flat-index order used by
`tiny_keccak::keccakf`. -/
def PI : List Nat :=
  [10, 7, 11, 17, 18, 3, 5, 16, 8, 21, 24, 4, 15, 23, 19, 13, 12, 2, 20, 14, 22, 9, 6, 1]

/-- Round constants of the iota step of Keccak-f[1600]. -/
def RC : List Nat :=
  [0x0000000000000001, 0x0000000000008082, 0x800000000000808a, 0x8000000080008000,
   0x000000000000808b, 0x0000000080000001, 0x8000000080008081, 0x8000000000008009,
   0x000000000000008a, 0x0000000000000088, 0x0000000080008009, 0x000000008000000a,
   0x000000008000808b, 0x800000000000008b, 0x8000000000008089, 0x8000000000008003,
   0x8000000000008002, 0x8000000000000080, 0x000000000000800a, 0x800000008000000a,
   0x8000000080008081, 0x8000000000008080, 0x0000000080000001, 0x8000000080008008]

/-- Column parity of the theta step: xor of the five lanes in column `x`. -/
def thetaC (a : List Nat) (x : Nat) : Nat :=
  kget a x ^^^ kget a (x + 5) ^^^ kget a (x + 10) ^^^ kget a (x + 15) ^^^ kget a (x + 20)

/-- Theta step of Keccak-f: each lane is xored with the parity of the two
neighbouring columns (one of them rotated by 1). -/
def theta (a : List Nat) : List Nat :=
  (List.range 25).map fun i =>
    kget a i ^^^ thetaC a ((i % 5 + 4) % 5) ^^^ rotl64 (thetaC a ((i % 5 + 1) % 5)) 1

/-- Combined rho-and-pi step, expressed as the same serialized in-place loop
`tiny_keccak` uses: a fold carrying the state and the lane displaced by the
previous iteration. -/
def rhoPi (a : List Nat) : List Nat :=
  ((List.range 24).foldl
    (fun st x => (st.1.set (kget PI x) (rotl64 st.2 (kget RHO x)), kget st.1 (kget PI x)))
    (a, kget a 1)).1

/-- Chi step of Keccak-f, row by row. -/
def chi (a : List Nat) : List Nat :=
  (List.range 25).map fun i =>
    kget a i ^^^
      (bnot64 (kget a (i / 5 * 5 + (i % 5 + 1) % 5)) &&& kget a (i / 5 * 5 + (i % 5 + 2) % 5))

/-- One round of Keccak-f[1600]: theta, rho-pi, chi, then the iota constant
xored into lane 0. -/
def keccakRound (i : Nat) (a : List Nat) : List Nat :=
  let b := chi (rhoPi (theta a))
  b.set 0 (kget b 0 ^^^ kget RC i)

/-- The Keccak-f[1600] permutation (24 rounds), as implemented by the
`tiny_keccak::keccakf` dependency of `src/dectalk.rs`. -/
def keccakf (a : List Nat) : List Nat :=
  (List.range 24).foldl (fun st i => keccakRound i st) a

/-- The DECtalk voice profile of `src/dectalk.rs`: an ordered record of
8-bit and 16-bit unsigned parameters, embedded as `Nat`. -/
structure DectalkVoice where
  average_pitch : Nat
  assertiveness : Nat
  fourth_formant_bandwidth : Nat
  fifth_formant_bandwidth : Nat
  baseline_fall : Nat
  breathiness : Nat
  fourth_formant_resonance : Nat
  fifth_formant_resonance : Nat
  hat_rise : Nat
  head_size : Nat
  laryngealization : Nat
  lax_breathiness : Nat
  num_fixed_samples_open_glottis : Nat
  pitch_range : Nat
  quickness : Nat
  richness : Nat
  smoothness : Nat
  stress_rise : Nat
  sex : Nat
deriving DecidableEq

/-- The PAUL reference preset (preset A). -/
def PAUL_VOICE : DectalkVoice where
  average_pitch := 112
  assertiveness := 100
  fourth_formant_bandwidth := 280
  fifth_formant_bandwidth := 330
  baseline_fall := 18
  breathiness := 0
  fourth_formant_resonance := 3300
  fifth_formant_resonance := 3650
  hat_rise := 18
  head_size := 100
  laryngealization := 0
  lax_breathiness := 0
  num_fixed_samples_open_glottis := 10
  pitch_range := 100
  quickness := 40
  richness := 70
  smoothness := 30
  stress_rise := 25
  sex := 1

/-- The WENDY reference preset (preset B). -/
def WENDY_VOICE : DectalkVoice where
  average_pitch := 195
  assertiveness := 55
  fourth_formant_bandwidth := 300
  fifth_formant_bandwidth := 2048
  baseline_fall := 10
  breathiness := 45
  fourth_formant_resonance := 4600
  fifth_formant_resonance := 2500
  hat_rise := 18
  head_size := 100
  laryngealization := 0
  lax_breathiness := 80
  num_fixed_samples_open_glottis := 15
  pitch_range := 100
  quickness := 20
  richness := 70
  smoothness := 20
  stress_rise := 22
  sex := 1

/-- Larger of two `u16` values (`const_u16_max`). -/
def const_u16_max (num1 num2 : Nat) : Nat :=
  if num1 > num2 then num1 else num2

/-- Smaller of two `u16` values (`const_u16_min`). -/
def const_u16_min (num1 num2 : Nat) : Nat :=
  if num1 < num2 then num1 else num2

/-- Absolute difference of two `u16` values (`const_u16_range`). -/
def const_u16_range (num1 num2 : Nat) : Nat :=
  const_u16_max num1 num2 - const_u16_min num1 num2

/-- Saturating `u16` subtraction (`const_u16_clamped_subtract`). -/
def const_u16_clamped_subtract (num1 num2 : Nat) : Nat :=
  if num2 > num1 then 0 else num1 - num2

/-- Saturating `u16` addition (`const_u16_clamped_add`), clamping at
`u16::MAX = 65535`. -/
def const_u16_clamped_add (num1 num2 : Nat) : Nat :=
  if num2 > 65535 - num1 then 65535 else num1 + num2

/-- Larger of two `u8` values (`const_u8_max`). -/
def const_u8_max (num1 num2 : Nat) : Nat :=
  if num1 > num2 then num1 else num2

/-- Smaller of two `u8` values (`const_u8_min`). -/
def const_u8_min (num1 num2 : Nat) : Nat :=
  if num1 < num2 then num1 else num2

/-- Absolute difference of two `u8` values (`const_u8_range`). -/
def const_u8_range (num1 num2 : Nat) : Nat :=
  const_u8_max num1 num2 - const_u8_min num1 num2

/-- Saturating `u8` subtraction (`const_u8_clamped_subtract`). -/
def const_u8_clamped_subtract (num1 num2 : Nat) : Nat :=
  if num2 > num1 then 0 else num1 - num2

/-- Saturating `u8` addition (`const_u8_clamped_add`), clamping at
`u8::MAX = 255`. -/
def const_u8_clamped_add (num1 num2 : Nat) : Nat :=
  if num2 > 255 - num1 then 255 else num1 + num2

def AVERAGE_PITCH_RANGE : Nat :=
  const_u16_range PAUL_VOICE.average_pitch WENDY_VOICE.average_pitch
def AVERAGE_PITCH_MIN : Nat :=
  const_u16_clamped_subtract PAUL_VOICE.average_pitch AVERAGE_PITCH_RANGE
def AVERAGE_PITCH_MAX : Nat :=
  const_u16_clamped_add PAUL_VOICE.average_pitch AVERAGE_PITCH_RANGE
def ASSERTIVENESS_RANGE : Nat :=
  const_u8_range PAUL_VOICE.assertiveness WENDY_VOICE.assertiveness
def ASSERTIVENESS_MIN : Nat :=
  const_u8_clamped_subtract PAUL_VOICE.assertiveness ASSERTIVENESS_RANGE
def ASSERTIVENESS_MAX : Nat :=
  const_u8_clamped_add PAUL_VOICE.assertiveness ASSERTIVENESS_RANGE
def FOURTH_FORMANT_BANDWIDTH_RANGE : Nat :=
  const_u16_range PAUL_VOICE.fourth_formant_bandwidth WENDY_VOICE.fourth_formant_bandwidth
def FOURTH_FORMANT_BANDWIDTH_MIN : Nat :=
  const_u16_clamped_subtract PAUL_VOICE.fourth_formant_bandwidth FOURTH_FORMANT_BANDWIDTH_RANGE
def FOURTH_FORMANT_BANDWIDTH_MAX : Nat :=
  const_u16_clamped_add PAUL_VOICE.fourth_formant_bandwidth FOURTH_FORMANT_BANDWIDTH_RANGE
def FIFTH_FORMANT_BANDWIDTH_RANGE : Nat :=
  const_u16_range PAUL_VOICE.fifth_formant_bandwidth WENDY_VOICE.fifth_formant_bandwidth
def FIFTH_FORMANT_BANDWIDTH_MIN : Nat :=
  const_u16_clamped_subtract PAUL_VOICE.fifth_formant_bandwidth FIFTH_FORMANT_BANDWIDTH_RANGE
def FIFTH_FORMANT_BANDWIDTH_MAX : Nat :=
  const_u16_clamped_add PAUL_VOICE.fifth_formant_bandwidth FIFTH_FORMANT_BANDWIDTH_RANGE
def BASELINE_FALL_RANGE : Nat :=
  const_u16_range PAUL_VOICE.baseline_fall WENDY_VOICE.baseline_fall
def BASELINE_FALL_MIN : Nat :=
  const_u16_clamped_subtract PAUL_VOICE.baseline_fall BASELINE_FALL_RANGE
def BASELINE_FALL_MAX : Nat :=
  const_u16_clamped_add PAUL_VOICE.baseline_fall BASELINE_FALL_RANGE
def BREATHINESS_RANGE : Nat :=
  const_u8_range PAUL_VOICE.breathiness WENDY_VOICE.breathiness
def BREATHINESS_MIN : Nat :=
  const_u8_clamped_subtract PAUL_VOICE.breathiness BREATHINESS_RANGE
def BREATHINESS_MAX : Nat :=
  const_u8_clamped_add PAUL_VOICE.breathiness BREATHINESS_RANGE
def FOURTH_FORMANT_RESONANCE_RANGE : Nat :=
  const_u16_range PAUL_VOICE.fourth_formant_resonance WENDY_VOICE.fourth_formant_resonance
def FOURTH_FORMANT_RESONANCE_MIN : Nat :=
  const_u16_clamped_subtract PAUL_VOICE.fourth_formant_resonance FOURTH_FORMANT_RESONANCE_RANGE
def FOURTH_FORMANT_RESONANCE_MAX : Nat :=
  const_u16_clamped_add PAUL_VOICE.fourth_formant_resonance FOURTH_FORMANT_RESONANCE_RANGE
def FIFTH_FORMANT_RESONANCE_RANGE : Nat :=
  const_u16_range PAUL_VOICE.fifth_formant_resonance WENDY_VOICE.fifth_formant_resonance
def FIFTH_FORMANT_RESONANCE_MIN : Nat :=
  const_u16_clamped_subtract PAUL_VOICE.fifth_formant_resonance FIFTH_FORMANT_RESONANCE_RANGE
def FIFTH_FORMANT_RESONANCE_MAX : Nat :=
  const_u16_clamped_add PAUL_VOICE.fifth_formant_resonance FIFTH_FORMANT_RESONANCE_RANGE
def HAT_RISE_RANGE : Nat :=
  const_u16_range PAUL_VOICE.hat_rise WENDY_VOICE.hat_rise
def HAT_RISE_MIN : Nat :=
  const_u16_clamped_subtract PAUL_VOICE.hat_rise HAT_RISE_RANGE
def HAT_RISE_MAX : Nat :=
  const_u16_clamped_add PAUL_VOICE.hat_rise HAT_RISE_RANGE
def HEAD_SIZE_RANGE : Nat :=
  const_u8_range PAUL_VOICE.head_size WENDY_VOICE.head_size
def HEAD_SIZE_MIN : Nat :=
  const_u8_clamped_subtract PAUL_VOICE.head_size HEAD_SIZE_RANGE
def HEAD_SIZE_MAX : Nat :=
  const_u8_clamped_add PAUL_VOICE.head_size HEAD_SIZE_RANGE
def LARYNGEALIZATION_RANGE : Nat :=
  const_u8_range PAUL_VOICE.laryngealization WENDY_VOICE.laryngealization
def LARYNGEALIZATION_MIN : Nat :=
  const_u8_clamped_subtract PAUL_VOICE.laryngealization LARYNGEALIZATION_RANGE
def LARYNGEALIZATION_MAX : Nat :=
  const_u8_clamped_add PAUL_VOICE.laryngealization LARYNGEALIZATION_RANGE
def LAX_BREATHINESS_RANGE : Nat :=
  const_u8_range PAUL_VOICE.lax_breathiness WENDY_VOICE.lax_breathiness
def LAX_BREATHINESS_MIN : Nat :=
  const_u8_clamped_subtract PAUL_VOICE.lax_breathiness LAX_BREATHINESS_RANGE
def LAX_BREATHINESS_MAX : Nat :=
  const_u8_clamped_add PAUL_VOICE.lax_breathiness LAX_BREATHINESS_RANGE
def NUM_FIXED_SAMPLES_OPEN_GLOTTIS_RANGE : Nat :=
  const_u16_range PAUL_VOICE.num_fixed_samples_open_glottis
    WENDY_VOICE.num_fixed_samples_open_glottis
def NUM_FIXED_SAMPLES_OPEN_GLOTTIS_MIN : Nat :=
  const_u16_clamped_subtract PAUL_VOICE.num_fixed_samples_open_glottis
    NUM_FIXED_SAMPLES_OPEN_GLOTTIS_RANGE
def NUM_FIXED_SAMPLES_OPEN_GLOTTIS_MAX : Nat :=
  const_u16_clamped_add PAUL_VOICE.num_fixed_samples_open_glottis
    NUM_FIXED_SAMPLES_OPEN_GLOTTIS_RANGE
def PITCH_RANGE_RANGE : Nat :=
  const_u8_range PAUL_VOICE.pitch_range WENDY_VOICE.pitch_range
def PITCH_RANGE_MIN : Nat :=
  const_u8_clamped_subtract PAUL_VOICE.pitch_range PITCH_RANGE_RANGE
def PITCH_RANGE_MAX : Nat :=
  const_u8_clamped_add PAUL_VOICE.pitch_range PITCH_RANGE_RANGE
def QUICKNESS_RANGE : Nat :=
  const_u8_range PAUL_VOICE.quickness WENDY_VOICE.quickness
def QUICKNESS_MIN : Nat :=
  const_u8_clamped_subtract PAUL_VOICE.quickness QUICKNESS_RANGE
def QUICKNESS_MAX : Nat :=
  const_u8_clamped_add PAUL_VOICE.quickness QUICKNESS_RANGE
def RICHNESS_RANGE : Nat :=
  const_u8_range PAUL_VOICE.richness WENDY_VOICE.richness
def RICHNESS_MIN : Nat :=
  const_u8_clamped_subtract PAUL_VOICE.richness RICHNESS_RANGE
def RICHNESS_MAX : Nat :=
  const_u8_clamped_add PAUL_VOICE.richness RICHNESS_RANGE
def SMOOTHNESS_RANGE : Nat :=
  const_u8_range PAUL_VOICE.smoothness WENDY_VOICE.smoothness
def SMOOTHNESS_MIN : Nat :=
  const_u8_clamped_subtract PAUL_VOICE.smoothness SMOOTHNESS_RANGE
def SMOOTHNESS_MAX : Nat :=
  const_u8_clamped_add PAUL_VOICE.smoothness SMOOTHNESS_RANGE
def STRESS_RISE_RANGE : Nat :=
  const_u16_range PAUL_VOICE.stress_rise WENDY_VOICE.stress_rise
def STRESS_RISE_MIN : Nat :=
  const_u16_clamped_subtract PAUL_VOICE.stress_rise STRESS_RISE_RANGE
def STRESS_RISE_MAX : Nat :=
  const_u16_clamped_add PAUL_VOICE.stress_rise STRESS_RISE_RANGE
def SEX_RANGE : Nat :=
  const_u8_range PAUL_VOICE.sex WENDY_VOICE.sex
def SEX_MIN : Nat :=
  const_u8_clamped_subtract PAUL_VOICE.sex SEX_RANGE
def SEX_MAX : Nat :=
  const_u8_clamped_add PAUL_VOICE.sex SEX_RANGE

/-- The modulo reduction of a 64-bit word into an inclusive range
(`u64_to_range` in `src/dectalk.rs`). -/
def u64_to_range (min max value : Nat) : Nat :=
  min + value % (max - min + 1)

/-- `DectalkVoice::generate`: seed all 25 lanes with `player_id ^ seed`,
then alternately permute the state with Keccak-f and reduce lane 0 into the
parameter's range, in the fixed declared order.  The `as u16` / `as u8`
truncating casts of the source are the explicit `% 2 ^ 16` / `% 2 ^ 8`
reductions.  Inputs are reduced mod `2 ^ 64`, which is the identity on
actual `u64` values. -/
def DectalkVoice.generate (player_id seed : Nat) : DectalkVoice :=
  let s1 := keccakf (List.replicate 25 ((player_id ^^^ seed) % 2 ^ 64))
  let average_pitch := u64_to_range AVERAGE_PITCH_MIN AVERAGE_PITCH_MAX (kget s1 0) % 2 ^ 16
  let s2 := keccakf s1
  let assertiveness := u64_to_range ASSERTIVENESS_MIN ASSERTIVENESS_MAX (kget s2 0) % 2 ^ 8
  let s3 := keccakf s2
  let fourth_formant_bandwidth :=
    u64_to_range FOURTH_FORMANT_BANDWIDTH_MIN FOURTH_FORMANT_BANDWIDTH_MAX (kget s3 0) % 2 ^ 16
  let s4 := keccakf s3
  let fifth_formant_bandwidth :=
    u64_to_range FIFTH_FORMANT_BANDWIDTH_MIN FIFTH_FORMANT_BANDWIDTH_MAX (kget s4 0) % 2 ^ 16
  let s5 := keccakf s4
  let baseline_fall := u64_to_range BASELINE_FALL_MIN BASELINE_FALL_MAX (kget s5 0) % 2 ^ 16
  let s6 := keccakf s5
  let breathiness := u64_to_range BREATHINESS_MIN BREATHINESS_MAX (kget s6 0) % 2 ^ 8
  let s7 := keccakf s6
  let fourth_formant_resonance :=
    u64_to_range FOURTH_FORMANT_RESONANCE_MIN FOURTH_FORMANT_RESONANCE_MAX (kget s7 0) % 2 ^ 16
  let s8 := keccakf s7
  let fifth_formant_resonance :=
    u64_to_range FIFTH_FORMANT_RESONANCE_MIN FIFTH_FORMANT_RESONANCE_MAX (kget s8 0) % 2 ^ 16
  let s9 := keccakf s8
  let hat_rise := u64_to_range HAT_RISE_MIN HAT_RISE_MAX (kget s9 0) % 2 ^ 16
  let s10 := keccakf s9
  let head_size := u64_to_range HEAD_SIZE_MIN HEAD_SIZE_MAX (kget s10 0) % 2 ^ 8
  let s11 := keccakf s10
  let laryngealization := u64_to_range LARYNGEALIZATION_MIN LARYNGEALIZATION_MAX (kget s11 0) % 2 ^ 8
  let s12 := keccakf s11
  let lax_breathiness := u64_to_range LAX_BREATHINESS_MIN LAX_BREATHINESS_MAX (kget s12 0) % 2 ^ 8
  let s13 := keccakf s12
  let num_fixed_samples_open_glottis :=
    u64_to_range NUM_FIXED_SAMPLES_OPEN_GLOTTIS_MIN NUM_FIXED_SAMPLES_OPEN_GLOTTIS_MAX
      (kget s13 0) % 2 ^ 16
  let s14 := keccakf s13
  let pitch_range := u64_to_range PITCH_RANGE_MIN PITCH_RANGE_MAX (kget s14 0) % 2 ^ 8
  let s15 := keccakf s14
  let quickness := u64_to_range QUICKNESS_MIN QUICKNESS_MAX (kget s15 0) % 2 ^ 8
  let s16 := keccakf s15
  let richness := u64_to_range RICHNESS_MIN RICHNESS_MAX (kget s16 0) % 2 ^ 8
  let s17 := keccakf s16
  let smoothness := u64_to_range SMOOTHNESS_MIN SMOOTHNESS_MAX (kget s17 0) % 2 ^ 8
  let s18 := keccakf s17
  let stress_rise := u64_to_range STRESS_RISE_MIN STRESS_RISE_MAX (kget s18 0) % 2 ^ 16
  let s19 := keccakf s18
  let sex := u64_to_range SEX_MIN SEX_MAX (kget s19 0) % 2 ^ 8
  { average_pitch := average_pitch
    assertiveness := assertiveness
    fourth_formant_bandwidth := fourth_formant_bandwidth
    fifth_formant_bandwidth := fifth_formant_bandwidth
    baseline_fall := baseline_fall
    breathiness := breathiness
    fourth_formant_resonance := fourth_formant_resonance
    fifth_formant_resonance := fifth_formant_resonance
    hat_rise := hat_rise
    head_size := head_size
    laryngealization := laryngealization
    lax_breathiness := lax_breathiness
    num_fixed_samples_open_glottis := num_fixed_samples_open_glottis
    pitch_range := pitch_range
    quickness := quickness
    richness := richness
    smoothness := smoothness
    stress_rise := stress_rise
    sex := sex }

/-- Decode a little-endian `u16` from a 2-byte list (`u16::from_le_bytes`). -/
def le16 : List Nat → Nat
  | [a, b] => a + 256 * b
  | _ => 0

/-- Decode a little-endian `u32` from a 4-byte list (`u32::from_le_bytes`). -/
def le32 : List Nat → Nat
  | [a, b, c, d] => a + 256 * b + 65536 * c + 16777216 * d
  | _ => 0

/-- Encode a `u16` value as its two little-endian bytes. -/
def le16enc (n : Nat) : List Nat :=
  [n % 256, n / 256 % 256]

/-- Encode a `u32` value as its four little-endian bytes. -/
def le32enc (n : Nat) : List Nat :=
  [n % 256, n / 256 % 256, n / 65536 % 256, n / 16777216 % 256]

/-- Reinterpret a `u16` bit pattern as a signed `i16` value. -/
def toI16 (n : Nat) : Int :=
  if n % 65536 < 32768 then (n % 65536 : Int) else (n % 65536 : Int) - 65536

/-- The `u16` bit pattern of an `i16` value (two's complement). -/
def toU16 (s : Int) : Nat :=
  (s % 65536).toNat

/-- `Cursor::read_exact`: succeed with exactly `n` bytes starting at `pos`,
fail if fewer than `n` bytes remain. -/
def readExact (bytes : List Nat) (pos n : Nat) : Option (List Nat) :=
  if pos + n ≤ bytes.length then some ((bytes.drop pos).take n) else none

/-- The unknown-chunk scan loop of `get_wav_duration` (src/main.rs lines
330-337), with explicit fuel.  `none` means the fuel ran out (shown
unreachable for fuel `bytes.length + 1` below); `some none` is the loop
ending in a read failure because the buffer was exhausted; `some (some sz)`
is a `data` chunk header found with declared size `sz`. -/
def scanData (bytes : List Nat) : Nat → Nat → Option (Option Nat)
  | 0, _ => none
  | fuel + 1, pos =>
    match readExact bytes pos 8 with
    | none => some none
    | some hdr =>
      if hdr.take 4 = [100, 97, 116, 97] then some (some (le32 (hdr.drop 4)))
      else scanData bytes fuel (pos + 8 + le32 (hdr.drop 4))

/-- Outcome of the duration analyzer: the Rust function returns
`Option<f64>` (`failed` = `None`, `ok` = `Some`), and `panicked` records the
abnormal termination caused by out-of-bounds slicing of the fmt payload. -/
inductive WavOutcome where
  | panicked
  | failed
  | ok (duration : ℚ)
deriving DecidableEq

/-- `get_wav_duration` of src/main.rs.  Divisions are modelled over `ℚ`
instead of `f64` (both are exact at the concrete instances proved below).
When the declared fmt chunk size is below 14, the source's slice expressions
`fmt_chunk_data[0..2]`, `[4..8]`, `[12..14]` (lines 319-323) panic; this is
the `panicked` outcome. -/
def get_wav_duration (bytes : List Nat) : WavOutcome :=
  match readExact bytes 0 12 with
  | none => .failed
  | some riff_header =>
    if riff_header.take 4 = [82, 73, 70, 70] ∧ riff_header.drop 8 = [87, 65, 86, 69] then
      match readExact bytes 12 8 with
      | none => .failed
      | some fmt_chunk_header =>
        if fmt_chunk_header.take 4 = [102, 109, 116, 32] then
          match readExact bytes 20 (le32 (fmt_chunk_header.drop 4)) with
          | none => .failed
          | some fmt_chunk_data =>
            if le32 (fmt_chunk_header.drop 4) < 14 then .panicked
            else if le16 (fmt_chunk_data.take 2) = 1 then
              match scanData bytes (bytes.length + 1) (20 + le32 (fmt_chunk_header.drop 4)) with
              | none => .failed
              | some none => .failed
              | some (some data_chunk_size) =>
                .ok ((data_chunk_size : ℚ) / (le16 ((fmt_chunk_data.drop 12).take 2) : ℚ) /
                  (le32 ((fmt_chunk_data.drop 4).take 4) : ℚ))
            else .failed
        else .failed
    else .failed

/-- The declared size of the fmt chunk, extracted by the same header parse
`get_wav_duration` performs; `none` when the parse fails before reaching the
fmt payload. -/
def fmtDeclaredSize (bytes : List Nat) : Option Nat :=
  match readExact bytes 0 12 with
  | none => none
  | some riff_header =>
    if riff_header.take 4 = [82, 73, 70, 70] ∧ riff_header.drop 8 = [87, 65, 86, 69] then
      match readExact bytes 12 8 with
      | none => none
      | some fmt_chunk_header =>
        if fmt_chunk_header.take 4 = [102, 109, 116, 32] then
          match readExact bytes 20 (le32 (fmt_chunk_header.drop 4)) with
          | none => none
          | some _ => some (le32 (fmt_chunk_header.drop 4))
        else none
    else none

/-- Whether the buffer is safe from the fmt-payload slicing panic: either the
header parse fails before the slicing, or the declared fmt size covers the
14 bytes the source slices. -/
def fmtSliceSafe (bytes : List Nat) : Bool :=
  match fmtDeclaredSize bytes with
  | none => true
  | some fs => 14 ≤ fs

/-- Format metadata hound preserves from reader to writer: channel count and
sample rate (the embedding fixes 16-bit integer samples). -/
structure WavSpecM where
  channels : Nat
  sample_rate : Nat
deriving DecidableEq

/-- Decode consecutive byte pairs as little-endian `i16` samples; a trailing
odd byte yields no sample (the sample count is `size / 2`). -/
def decodePairs : List Nat → List Int
  | a :: b :: rest => toI16 (a + 256 * b) :: decodePairs rest
  | _ => []

/-- Modelled from the spec: the chunk loop of the hound WAV reader used by
`normalize_wav_volume` (the `hound` crate is outside this repository).  Per
§4.4 the reader re-validates linear PCM and decodes all 16-bit samples;
unknown chunks are skipped, a `data` chunk needs a previously seen fmt
chunk, and a buffer exhausted before `data` is an error. -/
def houndScan (bytes : List Nat) :
    Nat → Nat → Option WavSpecM → Option (WavSpecM × List Int)
  | 0, _, _ => none
  | fuel + 1, pos, spec? =>
    match readExact bytes pos 8 with
    | none => none
    | some hdr =>
      if hdr.take 4 = [102, 109, 116, 32] then
        match readExact bytes (pos + 8) 16 with
        | none => none
        | some f =>
          if 16 ≤ le32 (hdr.drop 4) ∧ le16 (f.take 2) = 1 ∧ le16 ((f.drop 14).take 2) = 16 then
            houndScan bytes fuel (pos + 8 + le32 (hdr.drop 4))
              (some ⟨le16 ((f.drop 2).take 2), le32 ((f.drop 4).take 4)⟩)
          else none
      else if hdr.take 4 = [100, 97, 116, 97] then
        match spec? with
        | none => none
        | some spec =>
          if pos + 8 + le32 (hdr.drop 4) ≤ bytes.length then
            some (spec, decodePairs ((bytes.drop (pos + 8)).take (le32 (hdr.drop 4))))
          else none
      else houndScan bytes fuel (pos + 8 + le32 (hdr.drop 4)) spec?

/-- Modelled from the spec: `hound::WavReader` open-and-decode on an
in-memory buffer (§4.4): RIFF/WAVE container check, then the chunk loop. -/
def houndRead (bytes : List Nat) : Option (WavSpecM × List Int) :=
  match readExact bytes 0 12 with
  | none => none
  | some riff =>
    if riff.take 4 = [82, 73, 70, 70] ∧ riff.drop 8 = [87, 65, 86, 69] then
      houndScan bytes (bytes.length + 1) 12 none
    else none

/-- Modelled from the spec: `hound::WavWriter` serialization of 16-bit
integer PCM (§4.4): a canonical RIFF/WAVE container with a 16-byte fmt
chunk followed by a single data chunk of little-endian samples. -/
def houndWrite (spec : WavSpecM) (samples : List Int) : List Nat :=
  [82, 73, 70, 70] ++ le32enc (36 + 2 * samples.length) ++ [87, 65, 86, 69] ++
    [102, 109, 116, 32] ++ le32enc 16 ++
    le16enc 1 ++ le16enc spec.channels ++ le32enc spec.sample_rate ++
    le32enc (spec.sample_rate * spec.channels * 2) ++
    le16enc (spec.channels * 2) ++ le16enc 16 ++
    [100, 97, 116, 97] ++ le32enc (2 * samples.length) ++
    (samples.map fun s => le16enc (toU16 s)).flatten

/-- The `f64` value `q` truncated toward zero and saturated to `i16` range,
as the Rust cast `as i16` does on a finite float. -/
def truncSatI16 (q : ℚ) : Int :=
  max (-32768) (min 32767 (if 0 ≤ q then ⌊q⌋ else ⌈q⌉))

/-- The per-sample rescaling of `normalize_wav_volume` (src/main.rs lines
392-396): positive samples scale by `sample / max_sample * i16::MAX`, others
by `sample / min_sample * i16::MIN`, truncated by the `as i16` cast.  The
`f64` arithmetic is modelled over `ℚ`; the IEEE special cases a zero
denominator produces are made explicit: `0.0 / 0.0` is NaN and casts to `0`,
a nonzero sample over `0.0` gives an infinity whose product casts to the
saturation bound `32767`. -/
def scaleSample (s maxS minS : Int) : Int :=
  if 0 < s then
    if maxS = 0 then 32767
    else truncSatI16 ((s : ℚ) / (maxS : ℚ) * 32767)
  else
    if minS = 0 then (if s = 0 then 0 else 32767)
    else truncSatI16 ((s : ℚ) / (minS : ℚ) * (-32768))

/-- `normalize_wav_volume` of src/main.rs: decode via hound, compute the
positive and negative peaks by folding `max` / `min` from `0`, rescale every
sample, and re-encode with the original spec. -/
def normalize_wav_volume (wav_file : List Nat) : Option (List Nat) :=
  match houndRead wav_file with
  | none => none
  | some (spec, samples) =>
    let max_sample := samples.foldl (fun a b => max a b) 0
    let min_sample := samples.foldl (fun a b => min a b) 0
    some (houndWrite spec (samples.map fun s => scaleSample s max_sample min_sample))

/-- The spec's range-derivation formula, part one: `delta = |A - B|`. -/
def specDelta (a b : Nat) : Nat :=
  ((a : Int) - (b : Int)).natAbs

/-- The spec's range-derivation formula, part two: `min = clamp(A - delta,
numeric_floor)` with floor `0`. -/
def specRangeMin (a delta : Nat) : Nat :=
  ((a : Int) - (delta : Int)).toNat

/-- The spec's range-derivation formula, part three: `max = clamp(A + delta,
numeric_ceiling)`. -/
def specRangeMax (a delta ceiling : Nat) : Nat :=
  min (a + delta) ceiling

/-- The header of a structured WAV test buffer: RIFF tag, a 4-byte size
field, WAVE tag, then an fmt chunk whose declared size is the payload's
actual length. -/
def wavHeader (rs fp : List Nat) : List Nat :=
  [82, 73, 70, 70] ++ rs ++ [87, 65, 86, 69] ++
    [102, 109, 116, 32] ++ le32enc fp.length ++ fp

/-- A RIFF chunk: 4-byte tag, little-endian declared size equal to the
payload's actual length, then the payload. -/
def chunkOf (tag payload : List Nat) : List Nat :=
  tag ++ le32enc payload.length ++ payload

/-- What `get_wav_duration` does after the fixed-position header parse of a
structured buffer, as a function of the fmt payload and of the chunk-scan
result. -/
def wavTail (fp : List Nat) (scanRes : Option (Option Nat)) : WavOutcome :=
  if fp.length < 14 then .panicked
  else if le16 (fp.take 2) = 1 then
    match scanRes with
    | none => .failed
    | some none => .failed
    | some (some data_chunk_size) =>
      .ok ((data_chunk_size : ℚ) / (le16 ((fp.drop 12).take 2) : ℚ) /
        (le32 ((fp.drop 4).take 4) : ℚ))
  else .failed

/-- A 20-byte buffer with valid RIFF/WAVE/fmt tags whose fmt chunk declares
size 0: `get_wav_duration` panics on it slicing the empty fmt payload. -/
def badFmt20 : List Nat :=
  [82, 73, 70, 70, 0, 0, 0, 0, 87, 65, 86, 69, 102, 109, 116, 32, 0, 0, 0, 0]

/-- A 12-byte buffer whose first four bytes are not the RIFF tag. -/
def notRiffBuf : List Nat :=
  [0, 1, 2, 3, 4, 5, 6, 7, 8, 9, 10, 11]

/-- A 16-byte PCM fmt payload: format 1, mono, 44100 Hz, block align 2,
16 bits per sample. -/
def fmtPcmPayload : List Nat :=
  le16enc 1 ++ le16enc 1 ++ le32enc 44100 ++ le32enc 88200 ++ le16enc 2 ++ le16enc 16

/-- The same fmt payload but declaring audio-format code 3 (float PCM). -/
def fmtFloatPayload : List Nat :=
  le16enc 3 ++ le16enc 1 ++ le32enc 44100 ++ le32enc 88200 ++ le16enc 2 ++ le16enc 16

/-- A float-PCM WAV buffer: well-formed container, format code 3. -/
def floatFmtWav : List Nat :=
  wavHeader (le32enc 36) fmtFloatPayload ++ chunkOf [100, 97, 116, 97] []

/-- A fully-normalized two-sample WAV (samples `32767` and `-32768`) with a
`JUNK` chunk between fmt and data. -/
def wavJunk : List Nat :=
  [82, 73, 70, 70] ++ le32enc 48 ++ [87, 65, 86, 69] ++
    [102, 109, 116, 32] ++ le32enc 16 ++
    le16enc 1 ++ le16enc 1 ++ le32enc 44100 ++ le32enc 176400 ++ le16enc 2 ++ le16enc 16 ++
    [74, 85, 78, 75] ++ le32enc 0 ++
    [100, 97, 116, 97] ++ le32enc 4 ++ [255, 127, 0, 128]

/-- Range containment of a full voice profile: every parameter lies within
its derived inclusive `[MIN, MAX]` range. -/
def inRangeProfile (v : DectalkVoice) : Prop :=
  AVERAGE_PITCH_MIN ≤ v.average_pitch ∧ v.average_pitch ≤ AVERAGE_PITCH_MAX ∧
  ASSERTIVENESS_MIN ≤ v.assertiveness ∧ v.assertiveness ≤ ASSERTIVENESS_MAX ∧
  FOURTH_FORMANT_BANDWIDTH_MIN ≤ v.fourth_formant_bandwidth ∧
  v.fourth_formant_bandwidth ≤ FOURTH_FORMANT_BANDWIDTH_MAX ∧
  FIFTH_FORMANT_BANDWIDTH_MIN ≤ v.fifth_formant_bandwidth ∧
  v.fifth_formant_bandwidth ≤ FIFTH_FORMANT_BANDWIDTH_MAX ∧
  BASELINE_FALL_MIN ≤ v.baseline_fall ∧ v.baseline_fall ≤ BASELINE_FALL_MAX ∧
  BREATHINESS_MIN ≤ v.breathiness ∧ v.breathiness ≤ BREATHINESS_MAX ∧
  FOURTH_FORMANT_RESONANCE_MIN ≤ v.fourth_formant_resonance ∧
  v.fourth_formant_resonance ≤ FOURTH_FORMANT_RESONANCE_MAX ∧
  FIFTH_FORMANT_RESONANCE_MIN ≤ v.fifth_formant_resonance ∧
  v.fifth_formant_resonance ≤ FIFTH_FORMANT_RESONANCE_MAX ∧
  HAT_RISE_MIN ≤ v.hat_rise ∧ v.hat_rise ≤ HAT_RISE_MAX ∧
  HEAD_SIZE_MIN ≤ v.head_size ∧ v.head_size ≤ HEAD_SIZE_MAX ∧
  LARYNGEALIZATION_MIN ≤ v.laryngealization ∧ v.laryngealization ≤ LARYNGEALIZATION_MAX ∧
  LAX_BREATHINESS_MIN ≤ v.lax_breathiness ∧ v.lax_breathiness ≤ LAX_BREATHINESS_MAX ∧
  NUM_FIXED_SAMPLES_OPEN_GLOTTIS_MIN ≤ v.num_fixed_samples_open_glottis ∧
  v.num_fixed_samples_open_glottis ≤ NUM_FIXED_SAMPLES_OPEN_GLOTTIS_MAX ∧
  PITCH_RANGE_MIN ≤ v.pitch_range ∧ v.pitch_range ≤ PITCH_RANGE_MAX ∧
  QUICKNESS_MIN ≤ v.quickness ∧ v.quickness ≤ QUICKNESS_MAX ∧
  RICHNESS_MIN ≤ v.richness ∧ v.richness ≤ RICHNESS_MAX ∧
  SMOOTHNESS_MIN ≤ v.smoothness ∧ v.smoothness ≤ SMOOTHNESS_MAX ∧
  STRESS_RISE_MIN ≤ v.stress_rise ∧ v.stress_rise ≤ STRESS_RISE_MAX ∧
  SEX_MIN ≤ v.sex ∧ v.sex ≤ SEX_MAX

theorem length_le16enc (n : Nat) : (le16enc n).length = 2 := rfl

theorem length_le32enc (n : Nat) : (le32enc n).length = 4 := rfl

theorem le16_le16enc (n : Nat) : le16 (le16enc n) = n % 65536 := by
  simp only [le16, le16enc]
  omega

theorem le32_le32enc (n : Nat) (h : n < 2 ^ 32) : le32 (le32enc n) = n := by
  simp only [le32, le32enc]
  omega

theorem readExact_eq_some {bytes : List Nat} {pos n : Nat} {l : List Nat}
    (h : readExact bytes pos n = some l) :
    pos + n ≤ bytes.length ∧ l = (bytes.drop pos).take n := by
  unfold readExact at h
  split at h
  · exact ⟨by assumption, (Option.some.inj h).symm⟩
  · cases h

theorem readExact_shift (pre suf : List Nat) (q n : Nat) :
    readExact (pre ++ suf) (pre.length + q) n = readExact suf q n := by
  unfold readExact
  have hd : (pre ++ suf).drop (pre.length + q) = suf.drop q := by
    simp [List.drop_append]
  simp [hd, Nat.add_assoc]

theorem readExact_at (pre mid suf : List Nat) :
    readExact (pre ++ (mid ++ suf)) pre.length mid.length = some mid := by
  simp [readExact, List.take_left]

theorem scanData_shift (pre suf : List Nat) :
    ∀ (fuel q : Nat), scanData (pre ++ suf) fuel (pre.length + q) = scanData suf fuel q := by
  intro fuel
  induction fuel with
  | zero => intro q; rfl
  | succ f ih =>
    intro q
    simp only [scanData, readExact_shift]
    cases h : readExact suf q 8 with
    | none => rfl
    | some hdr =>
      by_cases htag : hdr.take 4 = [100, 97, 116, 97]
      · simp [htag]
      · have e : pre.length + q + 8 + le32 (hdr.drop 4) =
            pre.length + (q + 8 + le32 (hdr.drop 4)) := by omega
        simp only [htag, if_false, e, ih]

theorem scanData_ne_none (bytes : List Nat) :
    ∀ (fuel pos : Nat), bytes.length - pos < 8 * fuel → scanData bytes fuel pos ≠ none := by
  intro fuel
  induction fuel with
  | zero => intro pos h; exact absurd h (by omega)
  | succ f ih =>
    intro pos h
    simp only [scanData]
    cases hr : readExact bytes pos 8 with
    | none => simp
    | some hdr =>
      by_cases htag : hdr.take 4 = [100, 97, 116, 97]
      · simp [htag]
      · have hb := (readExact_eq_some hr).1
        simp only [htag, if_false]
        exact ih _ (by omega)

theorem scanData_stable (bytes : List Nat) :
    ∀ (f g pos : Nat), f ≤ g → scanData bytes f pos ≠ none →
      scanData bytes g pos = scanData bytes f pos := by
  intro f
  induction f with
  | zero => intro g pos _ hne; exact absurd rfl hne
  | succ f ih =>
    intro g pos hfg hne
    cases g with
    | zero => exact absurd hfg (by omega)
    | succ g =>
      simp only [scanData] at hne ⊢
      cases hr : readExact bytes pos 8 with
      | none => simp
      | some hdr =>
        rw [hr] at hne
        by_cases htag : hdr.take 4 = [100, 97, 116, 97]
        · simp [htag]
        · simp only [htag, if_false] at hne ⊢
          exact ih g _ (by omega) hne

theorem scanData_fuel_irrel (bytes : List Nat) (f g pos : Nat)
    (hf : bytes.length < 8 * f) (hg : bytes.length < 8 * g) :
    scanData bytes f pos = scanData bytes g pos := by
  rcases Nat.le_total f g with h | h
  · exact (scanData_stable bytes f g pos h (scanData_ne_none bytes f pos (by omega))).symm
  · exact scanData_stable bytes g f pos h (scanData_ne_none bytes g pos (by omega))

theorem u64_to_range_mod_bounds (min max M w : Nat) (h1 : min ≤ max) (h2 : max < M) :
    min ≤ u64_to_range min max w % M ∧ u64_to_range min max w % M ≤ max := by
  have hpos : 0 < max - min + 1 := by omega
  have hmod : w % (max - min + 1) < max - min + 1 := Nat.mod_lt _ hpos
  have hle : u64_to_range min max w ≤ max := by unfold u64_to_range; omega
  have heq : u64_to_range min max w % M = u64_to_range min max w :=
    Nat.mod_eq_of_lt (by omega)
  rw [heq]
  unfold u64_to_range at hle ⊢
  exact ⟨by omega, hle⟩

/-- C1: for every identity and roll, every parameter of the generated voice
profile lies in its derived inclusive `[MIN, MAX]` range; the value is the
reduction `min + (word mod (max - min + 1))` of the first word of the
permuted state (which the embedded `DectalkVoice.generate` computes), and
the final truncating cast does not disturb it. -/
theorem c1_generate_in_range (player_id seed : Nat) :
    inRangeProfile (DectalkVoice.generate player_id seed) := by
  unfold inRangeProfile
  simp only [DectalkVoice.generate]
  exact ⟨
    (u64_to_range_mod_bounds _ _ _ _ (by decide) (by decide)).1,
    (u64_to_range_mod_bounds _ _ _ _ (by decide) (by decide)).2,
    (u64_to_range_mod_bounds _ _ _ _ (by decide) (by decide)).1,
    (u64_to_range_mod_bounds _ _ _ _ (by decide) (by decide)).2,
    (u64_to_range_mod_bounds _ _ _ _ (by decide) (by decide)).1,
    (u64_to_range_mod_bounds _ _ _ _ (by decide) (by decide)).2,
    (u64_to_range_mod_bounds _ _ _ _ (by decide) (by decide)).1,
    (u64_to_range_mod_bounds _ _ _ _ (by decide) (by decide)).2,
    (u64_to_range_mod_bounds _ _ _ _ (by decide) (by decide)).1,
    (u64_to_range_mod_bounds _ _ _ _ (by decide) (by decide)).2,
    (u64_to_range_mod_bounds _ _ _ _ (by decide) (by decide)).1,
    (u64_to_range_mod_bounds _ _ _ _ (by decide) (by decide)).2,
    (u64_to_range_mod_bounds _ _ _ _ (by decide) (by decide)).1,
    (u64_to_range_mod_bounds _ _ _ _ (by decide) (by decide)).2,
    (u64_to_range_mod_bounds _ _ _ _ (by decide) (by decide)).1,
    (u64_to_range_mod_bounds _ _ _ _ (by decide) (by decide)).2,
    (u64_to_range_mod_bounds _ _ _ _ (by decide) (by decide)).1,
    (u64_to_range_mod_bounds _ _ _ _ (by decide) (by decide)).2,
    (u64_to_range_mod_bounds _ _ _ _ (by decide) (by decide)).1,
    (u64_to_range_mod_bounds _ _ _ _ (by decide) (by decide)).2,
    (u64_to_range_mod_bounds _ _ _ _ (by decide) (by decide)).1,
    (u64_to_range_mod_bounds _ _ _ _ (by decide) (by decide)).2,
    (u64_to_range_mod_bounds _ _ _ _ (by decide) (by decide)).1,
    (u64_to_range_mod_bounds _ _ _ _ (by decide) (by decide)).2,
    (u64_to_range_mod_bounds _ _ _ _ (by decide) (by decide)).1,
    (u64_to_range_mod_bounds _ _ _ _ (by decide) (by decide)).2,
    (u64_to_range_mod_bounds _ _ _ _ (by decide) (by decide)).1,
    (u64_to_range_mod_bounds _ _ _ _ (by decide) (by decide)).2,
    (u64_to_range_mod_bounds _ _ _ _ (by decide) (by decide)).1,
    (u64_to_range_mod_bounds _ _ _ _ (by decide) (by decide)).2,
    (u64_to_range_mod_bounds _ _ _ _ (by decide) (by decide)).1,
    (u64_to_range_mod_bounds _ _ _ _ (by decide) (by decide)).2,
    (u64_to_range_mod_bounds _ _ _ _ (by decide) (by decide)).1,
    (u64_to_range_mod_bounds _ _ _ _ (by decide) (by decide)).2,
    (u64_to_range_mod_bounds _ _ _ _ (by decide) (by decide)).1,
    (u64_to_range_mod_bounds _ _ _ _ (by decide) (by decide)).2,
    (u64_to_range_mod_bounds _ _ _ _ (by decide) (by decide)).1,
    (u64_to_range_mod_bounds _ _ _ _ (by decide) (by decide)).2⟩

/-- C1 witness: the range-containment theorem instantiated at a concrete
identity and roll. -/
theorem c1_generate_in_range_witness :
    inRangeProfile (DectalkVoice.generate 0 0) :=
  c1_generate_in_range 0 0

/-- C2: every compile-time range constant equals the spec formula
`delta = |A - B|`, `min = clamp(A - delta, 0)`,
`max = clamp(A + delta, ceiling)` applied with saturating arithmetic to the
PAUL (A) and WENDY (B) baselines, and `MIN ≤ MAX` holds for every
parameter. -/
theorem c2_range_constants_follow_spec :
    (AVERAGE_PITCH_RANGE = specDelta PAUL_VOICE.average_pitch WENDY_VOICE.average_pitch ∧
      AVERAGE_PITCH_MIN = specRangeMin PAUL_VOICE.average_pitch AVERAGE_PITCH_RANGE ∧
      AVERAGE_PITCH_MAX = specRangeMax PAUL_VOICE.average_pitch AVERAGE_PITCH_RANGE 65535 ∧
      AVERAGE_PITCH_MIN ≤ AVERAGE_PITCH_MAX) ∧
    (ASSERTIVENESS_RANGE = specDelta PAUL_VOICE.assertiveness WENDY_VOICE.assertiveness ∧
      ASSERTIVENESS_MIN = specRangeMin PAUL_VOICE.assertiveness ASSERTIVENESS_RANGE ∧
      ASSERTIVENESS_MAX = specRangeMax PAUL_VOICE.assertiveness ASSERTIVENESS_RANGE 255 ∧
      ASSERTIVENESS_MIN ≤ ASSERTIVENESS_MAX) ∧
    (FOURTH_FORMANT_BANDWIDTH_RANGE = specDelta PAUL_VOICE.fourth_formant_bandwidth WENDY_VOICE.fourth_formant_bandwidth ∧
      FOURTH_FORMANT_BANDWIDTH_MIN = specRangeMin PAUL_VOICE.fourth_formant_bandwidth FOURTH_FORMANT_BANDWIDTH_RANGE ∧
      FOURTH_FORMANT_BANDWIDTH_MAX = specRangeMax PAUL_VOICE.fourth_formant_bandwidth FOURTH_FORMANT_BANDWIDTH_RANGE 65535 ∧
      FOURTH_FORMANT_BANDWIDTH_MIN ≤ FOURTH_FORMANT_BANDWIDTH_MAX) ∧
    (FIFTH_FORMANT_BANDWIDTH_RANGE = specDelta PAUL_VOICE.fifth_formant_bandwidth WENDY_VOICE.fifth_formant_bandwidth ∧
      FIFTH_FORMANT_BANDWIDTH_MIN = specRangeMin PAUL_VOICE.fifth_formant_bandwidth FIFTH_FORMANT_BANDWIDTH_RANGE ∧
      FIFTH_FORMANT_BANDWIDTH_MAX = specRangeMax PAUL_VOICE.fifth_formant_bandwidth FIFTH_FORMANT_BANDWIDTH_RANGE 65535 ∧
      FIFTH_FORMANT_BANDWIDTH_MIN ≤ FIFTH_FORMANT_BANDWIDTH_MAX) ∧
    (BASELINE_FALL_RANGE = specDelta PAUL_VOICE.baseline_fall WENDY_VOICE.baseline_fall ∧
      BASELINE_FALL_MIN = specRangeMin PAUL_VOICE.baseline_fall BASELINE_FALL_RANGE ∧
      BASELINE_FALL_MAX = specRangeMax PAUL_VOICE.baseline_fall BASELINE_FALL_RANGE 65535 ∧
      BASELINE_FALL_MIN ≤ BASELINE_FALL_MAX) ∧
    (BREATHINESS_RANGE = specDelta PAUL_VOICE.breathiness WENDY_VOICE.breathiness ∧
      BREATHINESS_MIN = specRangeMin PAUL_VOICE.breathiness BREATHINESS_RANGE ∧
      BREATHINESS_MAX = specRangeMax PAUL_VOICE.breathiness BREATHINESS_RANGE 255 ∧
      BREATHINESS_MIN ≤ BREATHINESS_MAX) ∧
    (FOURTH_FORMANT_RESONANCE_RANGE = specDelta PAUL_VOICE.fourth_formant_resonance WENDY_VOICE.fourth_formant_resonance ∧
      FOURTH_FORMANT_RESONANCE_MIN = specRangeMin PAUL_VOICE.fourth_formant_resonance FOURTH_FORMANT_RESONANCE_RANGE ∧
      FOURTH_FORMANT_RESONANCE_MAX = specRangeMax PAUL_VOICE.fourth_formant_resonance FOURTH_FORMANT_RESONANCE_RANGE 65535 ∧
      FOURTH_FORMANT_RESONANCE_MIN ≤ FOURTH_FORMANT_RESONANCE_MAX) ∧
    (FIFTH_FORMANT_RESONANCE_RANGE = specDelta PAUL_VOICE.fifth_formant_resonance WENDY_VOICE.fifth_formant_resonance ∧
      FIFTH_FORMANT_RESONANCE_MIN = specRangeMin PAUL_VOICE.fifth_formant_resonance FIFTH_FORMANT_RESONANCE_RANGE ∧
      FIFTH_FORMANT_RESONANCE_MAX = specRangeMax PAUL_VOICE.fifth_formant_resonance FIFTH_FORMANT_RESONANCE_RANGE 65535 ∧
      FIFTH_FORMANT_RESONANCE_MIN ≤ FIFTH_FORMANT_RESONANCE_MAX) ∧
    (HAT_RISE_RANGE = specDelta PAUL_VOICE.hat_rise WENDY_VOICE.hat_rise ∧
      HAT_RISE_MIN = specRangeMin PAUL_VOICE.hat_rise HAT_RISE_RANGE ∧
      HAT_RISE_MAX = specRangeMax PAUL_VOICE.hat_rise HAT_RISE_RANGE 65535 ∧
      HAT_RISE_MIN ≤ HAT_RISE_MAX) ∧
    (HEAD_SIZE_RANGE = specDelta PAUL_VOICE.head_size WENDY_VOICE.head_size ∧
      HEAD_SIZE_MIN = specRangeMin PAUL_VOICE.head_size HEAD_SIZE_RANGE ∧
      HEAD_SIZE_MAX = specRangeMax PAUL_VOICE.head_size HEAD_SIZE_RANGE 255 ∧
      HEAD_SIZE_MIN ≤ HEAD_SIZE_MAX) ∧
    (LARYNGEALIZATION_RANGE = specDelta PAUL_VOICE.laryngealization WENDY_VOICE.laryngealization ∧
      LARYNGEALIZATION_MIN = specRangeMin PAUL_VOICE.laryngealization LARYNGEALIZATION_RANGE ∧
      LARYNGEALIZATION_MAX = specRangeMax PAUL_VOICE.laryngealization LARYNGEALIZATION_RANGE 255 ∧
      LARYNGEALIZATION_MIN ≤ LARYNGEALIZATION_MAX) ∧
    (LAX_BREATHINESS_RANGE = specDelta PAUL_VOICE.lax_breathiness WENDY_VOICE.lax_breathiness ∧
      LAX_BREATHINESS_MIN = specRangeMin PAUL_VOICE.lax_breathiness LAX_BREATHINESS_RANGE ∧
      LAX_BREATHINESS_MAX = specRangeMax PAUL_VOICE.lax_breathiness LAX_BREATHINESS_RANGE 255 ∧
      LAX_BREATHINESS_MIN ≤ LAX_BREATHINESS_MAX) ∧
    (NUM_FIXED_SAMPLES_OPEN_GLOTTIS_RANGE = specDelta PAUL_VOICE.num_fixed_samples_open_glottis WENDY_VOICE.num_fixed_samples_open_glottis ∧
      NUM_FIXED_SAMPLES_OPEN_GLOTTIS_MIN = specRangeMin PAUL_VOICE.num_fixed_samples_open_glottis NUM_FIXED_SAMPLES_OPEN_GLOTTIS_RANGE ∧
      NUM_FIXED_SAMPLES_OPEN_GLOTTIS_MAX = specRangeMax PAUL_VOICE.num_fixed_samples_open_glottis NUM_FIXED_SAMPLES_OPEN_GLOTTIS_RANGE 65535 ∧
      NUM_FIXED_SAMPLES_OPEN_GLOTTIS_MIN ≤ NUM_FIXED_SAMPLES_OPEN_GLOTTIS_MAX) ∧
    (PITCH_RANGE_RANGE = specDelta PAUL_VOICE.pitch_range WENDY_VOICE.pitch_range ∧
      PITCH_RANGE_MIN = specRangeMin PAUL_VOICE.pitch_range PITCH_RANGE_RANGE ∧
      PITCH_RANGE_MAX = specRangeMax PAUL_VOICE.pitch_range PITCH_RANGE_RANGE 255 ∧
      PITCH_RANGE_MIN ≤ PITCH_RANGE_MAX) ∧
    (QUICKNESS_RANGE = specDelta PAUL_VOICE.quickness WENDY_VOICE.quickness ∧
      QUICKNESS_MIN = specRangeMin PAUL_VOICE.quickness QUICKNESS_RANGE ∧
      QUICKNESS_MAX = specRangeMax PAUL_VOICE.quickness QUICKNESS_RANGE 255 ∧
      QUICKNESS_MIN ≤ QUICKNESS_MAX) ∧
    (RICHNESS_RANGE = specDelta PAUL_VOICE.richness WENDY_VOICE.richness ∧
      RICHNESS_MIN = specRangeMin PAUL_VOICE.richness RICHNESS_RANGE ∧
      RICHNESS_MAX = specRangeMax PAUL_VOICE.richness RICHNESS_RANGE 255 ∧
      RICHNESS_MIN ≤ RICHNESS_MAX) ∧
    (SMOOTHNESS_RANGE = specDelta PAUL_VOICE.smoothness WENDY_VOICE.smoothness ∧
      SMOOTHNESS_MIN = specRangeMin PAUL_VOICE.smoothness SMOOTHNESS_RANGE ∧
      SMOOTHNESS_MAX = specRangeMax PAUL_VOICE.smoothness SMOOTHNESS_RANGE 255 ∧
      SMOOTHNESS_MIN ≤ SMOOTHNESS_MAX) ∧
    (STRESS_RISE_RANGE = specDelta PAUL_VOICE.stress_rise WENDY_VOICE.stress_rise ∧
      STRESS_RISE_MIN = specRangeMin PAUL_VOICE.stress_rise STRESS_RISE_RANGE ∧
      STRESS_RISE_MAX = specRangeMax PAUL_VOICE.stress_rise STRESS_RISE_RANGE 65535 ∧
      STRESS_RISE_MIN ≤ STRESS_RISE_MAX) ∧
    (SEX_RANGE = specDelta PAUL_VOICE.sex WENDY_VOICE.sex ∧
      SEX_MIN = specRangeMin PAUL_VOICE.sex SEX_RANGE ∧
      SEX_MAX = specRangeMax PAUL_VOICE.sex SEX_RANGE 255 ∧
      SEX_MIN ≤ SEX_MAX) := by
  repeat' apply And.intro
  all_goals decide

/-- C9: voice generation is deterministic; two profiles generated from equal
`(identity, roll)` pairs are equal in every field. -/
theorem c9_generate_deterministic (player_id seed : Nat) (v1 v2 : DectalkVoice)
    (h1 : v1 = DectalkVoice.generate player_id seed)
    (h2 : v2 = DectalkVoice.generate player_id seed) : v1 = v2 :=
  h1.trans h2.symm

/-- C9 witness: determinism applied at a concrete identity and roll. -/
theorem c9_generate_deterministic_witness :
    DectalkVoice.generate 0 0 = DectalkVoice.generate 0 0 :=
  c9_generate_deterministic 0 0 (DectalkVoice.generate 0 0) (DectalkVoice.generate 0 0) rfl rfl

/-- C10: the sex field of every generated profile is `1`, because both
presets set sex to `1`, so `SEX_MIN = SEX_MAX = 1` and the reduction of the
dedicated permutation draw is constant. -/
theorem c10_generate_sex_constant (player_id seed : Nat) :
    (DectalkVoice.generate player_id seed).sex = 1 ∧ SEX_MIN = 1 ∧ SEX_MAX = 1 := by
  refine ⟨?_, by decide, by decide⟩
  have h : ∀ w : Nat, u64_to_range SEX_MIN SEX_MAX w % 2 ^ 8 = 1 := by
    intro w
    have h1 : SEX_MIN = 1 := by decide
    have h2 : SEX_MAX = 1 := by decide
    simp [u64_to_range, h1, h2, Nat.mod_one]
  simp only [DectalkVoice.generate]
  exact h _

/-- C3 (amended): `get_wav_duration` always terminates — the unknown-chunk
scan loop, run with fuel `bytes.length + 1`, never exhausts its fuel and so
always ends in a returned result (a found data chunk or a read failure) —
and for every buffer that is safe from the fmt-payload slicing (the header
parse fails early, or the declared fmt size is at least the 14 bytes the
source slices) the function returns a result without panicking. -/
theorem c3_terminates_no_panic_when_fmt_covers_slices :
    (∀ (bytes : List Nat) (pos : Nat), scanData bytes (bytes.length + 1) pos ≠ none) ∧
    (∀ bytes : List Nat, fmtSliceSafe bytes = true →
      get_wav_duration bytes ≠ WavOutcome.panicked) := by
  constructor
  · intro bytes pos
    exact scanData_ne_none bytes (bytes.length + 1) pos (by omega)
  · intro bytes hsafe
    unfold get_wav_duration
    cases h1 : readExact bytes 0 12 with
    | none => simp
    | some riff =>
      by_cases h2 : riff.take 4 = [82, 73, 70, 70] ∧ riff.drop 8 = [87, 65, 86, 69]
      · simp only [if_pos h2]
        cases h3 : readExact bytes 12 8 with
        | none => simp
        | some hdr =>
          by_cases h4 : hdr.take 4 = [102, 109, 116, 32]
          · simp only [if_pos h4]
            cases h5 : readExact bytes 20 (le32 (hdr.drop 4)) with
            | none => simp
            | some dat =>
              dsimp only
              have hdecl : fmtDeclaredSize bytes = some (le32 (hdr.drop 4)) := by
                unfold fmtDeclaredSize
                rw [h1]
                simp only [if_pos h2]
                rw [h3]
                simp only [if_pos h4]
                rw [h5]
              unfold fmtSliceSafe at hsafe
              rw [hdecl] at hsafe
              have h14 : 14 ≤ le32 (hdr.drop 4) := by simpa using hsafe
              rw [if_neg (by omega)]
              by_cases h6 : le16 (dat.take 2) = 1
              · simp only [if_pos h6]
                cases h7 : scanData bytes (bytes.length + 1) (20 + le32 (hdr.drop 4)) with
                | none => simp
                | some r => cases r <;> simp
              · simp [h6]
          · simp [h4]
      · simp [h2]

/-- C3 counterexample: the claim as stated (no input ever panics) is false.
`badFmt20` has valid RIFF, WAVE and fmt tags but declares an fmt chunk of
size 0, so the source's slicing of the empty fmt payload
(`fmt_chunk_data[0..2]`) panics; in the embedding the outcome is
`panicked`. -/
theorem c3_panic_counterexample : get_wav_duration badFmt20 = WavOutcome.panicked := by
  decide

/-- C3 witness: the no-panic theorem applied at a concrete buffer satisfying
its hypothesis. -/
theorem c3_terminates_no_panic_witness :
    fmtSliceSafe [] = true ∧ get_wav_duration [] ≠ WavOutcome.panicked :=
  ⟨by decide, c3_terminates_no_panic_when_fmt_covers_slices.2 [] (by decide)⟩

theorem wavHeader_length (rs fp : List Nat) (h4 : rs.length = 4) :
    (wavHeader rs fp).length = 20 + fp.length := by
  simp [wavHeader, h4, length_le32enc]
  omega

theorem chunkOf_length (tag payload : List Nat) (ht : tag.length = 4) :
    (chunkOf tag payload).length = 8 + payload.length := by
  simp [chunkOf, ht, length_le32enc]
  omega

theorem gwd_structured (rs fp tl : List Nat) (h4 : rs.length = 4) (hfp : fp.length < 2 ^ 32) :
    get_wav_duration (wavHeader rs fp ++ tl) =
      wavTail fp (scanData (wavHeader rs fp ++ tl)
        ((wavHeader rs fp ++ tl).length + 1) (20 + fp.length)) := by
  have hB : wavHeader rs fp ++ tl =
      ([82, 73, 70, 70] ++ (rs ++ [87, 65, 86, 69])) ++
        (([102, 109, 116, 32] ++ le32enc fp.length) ++ (fp ++ tl)) := by
    simp [wavHeader, List.append_assoc]
  have h1 : readExact (wavHeader rs fp ++ tl) 0 12 =
      some ([82, 73, 70, 70] ++ (rs ++ [87, 65, 86, 69])) := by
    rw [hB]
    have h := readExact_at ([] : List Nat) ([82, 73, 70, 70] ++ (rs ++ [87, 65, 86, 69]))
      (([102, 109, 116, 32] ++ le32enc fp.length) ++ (fp ++ tl))
    simpa [h4, length_le32enc] using h
  have h2 : readExact (wavHeader rs fp ++ tl) 12 8 =
      some ([102, 109, 116, 32] ++ le32enc fp.length) := by
    rw [hB]
    have h := readExact_at ([82, 73, 70, 70] ++ (rs ++ [87, 65, 86, 69]))
      ([102, 109, 116, 32] ++ le32enc fp.length) (fp ++ tl)
    simpa [h4, length_le32enc] using h
  have h3 : readExact (wavHeader rs fp ++ tl) 20 fp.length = some fp := by
    have hB2 : wavHeader rs fp ++ tl =
        (([82, 73, 70, 70] ++ (rs ++ [87, 65, 86, 69])) ++
          ([102, 109, 116, 32] ++ le32enc fp.length)) ++ (fp ++ tl) := by
      simp [wavHeader, List.append_assoc]
    rw [hB2]
    have h := readExact_at
      (([82, 73, 70, 70] ++ (rs ++ [87, 65, 86, 69])) ++
        ([102, 109, 116, 32] ++ le32enc fp.length)) fp tl
    simpa [h4, length_le32enc] using h
  have ht1 : ([82, 73, 70, 70] ++ (rs ++ [87, 65, 86, 69])).take 4 = [82, 73, 70, 70] := by
    rw [List.take_append_of_le_length (by simp)]
    decide
  have ht2 : ([82, 73, 70, 70] ++ (rs ++ [87, 65, 86, 69])).drop 8 = [87, 65, 86, 69] := by
    have he : ([82, 73, 70, 70] ++ (rs ++ [87, 65, 86, 69])) =
        ([82, 73, 70, 70] ++ rs) ++ [87, 65, 86, 69] := by
      simp [List.append_assoc]
    have hl : ([82, 73, 70, 70] ++ rs).length = 8 := by simp [h4]
    rw [he, ← hl, List.drop_left]
  have ht3 : ([102, 109, 116, 32] ++ le32enc fp.length).take 4 = [102, 109, 116, 32] := by
    rw [List.take_append_of_le_length (by simp)]
    decide
  have ht4 : ([102, 109, 116, 32] ++ le32enc fp.length).drop 4 = le32enc fp.length := by
    have hl : (4 : Nat) = [102, 109, 116, 32].length := rfl
    rw [hl, List.drop_left]
  unfold get_wav_duration
  rw [h1]
  dsimp only
  rw [if_pos ⟨ht1, ht2⟩, h2]
  dsimp only
  rw [if_pos ht3, ht4, le32_le32enc _ hfp, h3]
  dsimp only
  unfold wavTail
  rfl

theorem scanData_chunk_step (tag payload rest : List Nat) (f : Nat) (ht : tag.length = 4)
    (hp : payload.length < 2 ^ 32) :
    scanData (chunkOf tag payload ++ rest) (f + 1) 0 =
      if tag = [100, 97, 116, 97] then some (some payload.length)
      else scanData rest f 0 := by
  have hchunk : chunkOf tag payload ++ rest =
      (tag ++ le32enc payload.length) ++ (payload ++ rest) := by
    simp [chunkOf, List.append_assoc]
  have hread : readExact (chunkOf tag payload ++ rest) 0 8 =
      some (tag ++ le32enc payload.length) := by
    rw [hchunk]
    have h := readExact_at ([] : List Nat) (tag ++ le32enc payload.length) (payload ++ rest)
    simpa [ht, length_le32enc] using h
  have htake : (tag ++ le32enc payload.length).take 4 = tag := by
    rw [← ht, List.take_left]
  have hdrop : (tag ++ le32enc payload.length).drop 4 = le32enc payload.length := by
    rw [← ht, List.drop_left]
  simp only [scanData]
  rw [hread]
  dsimp only
  rw [htake, hdrop, le32_le32enc _ hp]
  by_cases htag : tag = [100, 97, 116, 97]
  · rw [if_pos htag, if_pos htag]
  · rw [if_neg htag, if_neg htag]
    have hpos : 0 + 8 + payload.length = (chunkOf tag payload).length + 0 := by
      rw [chunkOf_length tag payload ht]
      omega
    rw [hpos]
    exact scanData_shift (chunkOf tag payload) rest f 0

theorem scan_from_header (rs fp suf : List Nat) (h4 : rs.length = 4) (f : Nat) :
    scanData (wavHeader rs fp ++ suf) f (20 + fp.length) = scanData suf f 0 := by
  have hW := wavHeader_length rs fp h4
  have h := scanData_shift (wavHeader rs fp) suf f 0
  rw [hW] at h
  simpa using h

/-- C4: on a well-formed PCM WAV (valid header, PCM fmt payload of declared
length at least 14, data chunk found) the analyzer returns
`data_chunk_size / block_align / sample_rate` (divisions modelled over `ℚ`);
and the synthetic 44100 Hz, mono, 16-bit WAV with exactly 44100 sample
frames (88200 data bytes) reports exactly 1 second. -/
theorem c4_duration_formula :
    (∀ (rs fp dp rest : List Nat), rs.length = 4 → fp.length < 2 ^ 32 → dp.length < 2 ^ 32 →
      14 ≤ fp.length → le16 (fp.take 2) = 1 →
      get_wav_duration (wavHeader rs fp ++ (chunkOf [100, 97, 116, 97] dp ++ rest)) =
        WavOutcome.ok ((dp.length : ℚ) / (le16 ((fp.drop 12).take 2) : ℚ) /
          (le32 ((fp.drop 4).take 4) : ℚ))) ∧
    get_wav_duration (wavHeader (le32enc 88236) fmtPcmPayload ++
      (chunkOf [100, 97, 116, 97] (List.replicate 88200 0) ++ [])) = WavOutcome.ok 1 := by
  have hgen : ∀ (rs fp dp rest : List Nat), rs.length = 4 → fp.length < 2 ^ 32 →
      dp.length < 2 ^ 32 → 14 ≤ fp.length → le16 (fp.take 2) = 1 →
      get_wav_duration (wavHeader rs fp ++ (chunkOf [100, 97, 116, 97] dp ++ rest)) =
        WavOutcome.ok ((dp.length : ℚ) / (le16 ((fp.drop 12).take 2) : ℚ) /
          (le32 ((fp.drop 4).take 4) : ℚ)) := by
    intro rs fp dp rest h4 hfp hdp h14 hpcm
    rw [gwd_structured rs fp _ h4 hfp, scan_from_header rs fp _ h4 _,
      scanData_chunk_step [100, 97, 116, 97] dp rest _ (by decide) hdp, if_pos rfl]
    unfold wavTail
    rw [if_neg (by omega), if_pos hpcm]
  refine ⟨hgen, ?_⟩
  have h := hgen (le32enc 88236) fmtPcmPayload (List.replicate 88200 0) []
    (by decide) (by decide) (by rw [List.length_replicate]; norm_num) (by decide) (by decide)
  rw [h]
  have e0 : (List.replicate 88200 (0 : Nat)).length = 88200 := List.length_replicate _ _
  have e1 : le16 ((fmtPcmPayload.drop 12).take 2) = 2 := by decide
  have e2 : le32 ((fmtPcmPayload.drop 4).take 4) = 44100 := by decide
  rw [e0, e1, e2]
  have e3 : ((88200 : Nat) : ℚ) / ((2 : Nat) : ℚ) / ((44100 : Nat) : ℚ) = 1 := by norm_num
  rw [e3]

/-- C4 witness: the duration formula applied at a concrete well-formed
buffer with an empty data chunk. -/
theorem c4_duration_formula_witness :
    get_wav_duration (wavHeader (le32enc 36) fmtPcmPayload ++
        (chunkOf [100, 97, 116, 97] [] ++ [])) =
      WavOutcome.ok ((([] : List Nat).length : ℚ) /
        (le16 ((fmtPcmPayload.drop 12).take 2) : ℚ) /
        (le32 ((fmtPcmPayload.drop 4).take 4) : ℚ)) :=
  c4_duration_formula.1 (le32enc 36) fmtPcmPayload [] []
    (by decide) (by decide) (by decide) (by decide) (by decide)

/-- C5: inserting one extra chunk with an unknown tag and a correct declared
length between the fmt chunk and the rest of the chunk sequence leaves the
result of `get_wav_duration` unchanged. -/
theorem c5_unknown_chunk_skipped (rs fp jt jp rest : List Nat) (h4 : rs.length = 4)
    (hfp : fp.length < 2 ^ 32) (hjt : jt.length = 4) (hjtag : jt ≠ [100, 97, 116, 97])
    (hjp : jp.length < 2 ^ 32) :
    get_wav_duration (wavHeader rs fp ++ (chunkOf jt jp ++ rest)) =
      get_wav_duration (wavHeader rs fp ++ rest) := by
  rw [gwd_structured rs fp _ h4 hfp, gwd_structured rs fp _ h4 hfp,
    scan_from_header rs fp _ h4 _, scan_from_header rs fp _ h4 _,
    scanData_chunk_step jt jp rest _ hjt hjp, if_neg hjtag]
  congr 1
  apply scanData_fuel_irrel
  · have h1 : (wavHeader rs fp ++ (chunkOf jt jp ++ rest)).length =
        28 + fp.length + jp.length + rest.length := by
      simp [List.length_append, wavHeader_length rs fp h4, chunkOf_length jt jp hjt]
      omega
    omega
  · have h2 : (wavHeader rs fp ++ rest).length = 20 + fp.length + rest.length := by
      simp [List.length_append, wavHeader_length rs fp h4]
    omega

/-- C5 witness: chunk-skipping invariance applied at a concrete buffer with
a zero-length JUNK chunk. -/
theorem c5_unknown_chunk_skipped_witness :
    get_wav_duration (wavHeader (le32enc 44) fmtPcmPayload ++
        (chunkOf [74, 85, 78, 75] [] ++ chunkOf [100, 97, 116, 97] [])) =
      get_wav_duration (wavHeader (le32enc 44) fmtPcmPayload ++
        chunkOf [100, 97, 116, 97] []) :=
  c5_unknown_chunk_skipped (le32enc 44) fmtPcmPayload [74, 85, 78, 75] []
    (chunkOf [100, 97, 116, 97] []) (by decide) (by decide) (by decide) (by decide) (by decide)

/-- C6 (amended): a buffer whose first 4 bytes are not `RIFF` makes
`get_wav_duration` return its untyped failure value (`None` in the source,
`failed` here), and a well-formed container whose fmt payload declares
audio-format code 3 returns the same untyped failure; the source's
`Option` return type carries no distinct `MalformedContainer` /
`UnsupportedCodec` errors. -/
theorem c6_failures_untyped :
    (∀ bytes : List Nat, bytes.take 4 ≠ [82, 73, 70, 70] →
      get_wav_duration bytes = WavOutcome.failed) ∧
    (∀ rs fp tl : List Nat, rs.length = 4 → fp.length < 2 ^ 32 → 14 ≤ fp.length →
      le16 (fp.take 2) = 3 → get_wav_duration (wavHeader rs fp ++ tl) = WavOutcome.failed) := by
  constructor
  · intro bytes hriff
    unfold get_wav_duration
    cases h1 : readExact bytes 0 12 with
    | none => rfl
    | some riff =>
      dsimp only
      have htk : riff.take 4 = bytes.take 4 := by
        rw [(readExact_eq_some h1).2]
        simp [List.take_take]
      rw [if_neg]
      intro hc
      exact hriff (htk ▸ hc.1)
  · intro rs fp tl h4 hfp h14 h3
    rw [gwd_structured rs fp tl h4 hfp]
    unfold wavTail
    rw [if_neg (by omega), if_neg (by rw [h3]; decide)]

/-- C6 counterexample: the claim's typed, distinct errors do not exist in
the code: a non-RIFF buffer and a float-PCM (format code 3) buffer both
produce the one untyped failure value, and the two results are equal, so
the two failure modes are not distinguished. -/
theorem c6_failures_untyped_counterexample :
    get_wav_duration notRiffBuf = WavOutcome.failed ∧
    get_wav_duration floatFmtWav = WavOutcome.failed ∧
    get_wav_duration notRiffBuf = get_wav_duration floatFmtWav := by
  refine ⟨by decide, by decide, by decide⟩

/-- C6 witness: the amended theorem applied at concrete buffers. -/
theorem c6_failures_untyped_witness :
    get_wav_duration (wavHeader (le32enc 36) fmtFloatPayload ++
      chunkOf [100, 97, 116, 97] []) = WavOutcome.failed :=
  c6_failures_untyped.2 (le32enc 36) fmtFloatPayload (chunkOf [100, 97, 116, 97] [])
    (by decide) (by decide) (by decide) (by decide)

theorem foldl_max_le (l : List Int) : ∀ (a c : Int), a ≤ c → (∀ s ∈ l, s ≤ c) →
    l.foldl (fun x y => max x y) a ≤ c := by
  induction l with
  | nil => intro a c ha _; simpa using ha
  | cons x xs ih =>
    intro a c ha h
    simp only [List.foldl_cons]
    exact ih _ _ (max_le ha (h x (by simp))) fun s hs => h s (by simp [hs])

theorem le_foldl_max (l : List Int) : ∀ a : Int, a ≤ l.foldl (fun x y => max x y) a := by
  induction l with
  | nil => intro a; simp
  | cons x xs ih =>
    intro a
    simp only [List.foldl_cons]
    exact le_trans (le_max_left a x) (ih _)

theorem mem_le_foldl_max (l : List Int) :
    ∀ (a s : Int), s ∈ l → s ≤ l.foldl (fun x y => max x y) a := by
  induction l with
  | nil => intro a s hs; cases hs
  | cons x xs ih =>
    intro a s hs
    simp only [List.foldl_cons]
    rcases List.mem_cons.mp hs with h | h
    · subst h
      exact le_trans (le_max_right a s) (le_foldl_max xs _)
    · exact ih _ s h

theorem le_foldl_min (l : List Int) : ∀ (a c : Int), c ≤ a → (∀ s ∈ l, c ≤ s) →
    c ≤ l.foldl (fun x y => min x y) a := by
  induction l with
  | nil => intro a c ha _; simpa using ha
  | cons x xs ih =>
    intro a c ha h
    simp only [List.foldl_cons]
    exact ih _ _ (le_min ha (h x (by simp))) fun s hs => h s (by simp [hs])

theorem foldl_min_le (l : List Int) : ∀ a : Int, l.foldl (fun x y => min x y) a ≤ a := by
  induction l with
  | nil => intro a; simp
  | cons x xs ih =>
    intro a
    simp only [List.foldl_cons]
    exact le_trans (ih _) (min_le_left a x)

theorem foldl_min_le_mem (l : List Int) :
    ∀ (a s : Int), s ∈ l → l.foldl (fun x y => min x y) a ≤ s := by
  induction l with
  | nil => intro a s hs; cases hs
  | cons x xs ih =>
    intro a s hs
    simp only [List.foldl_cons]
    rcases List.mem_cons.mp hs with h | h
    · subst h
      exact le_trans (foldl_min_le xs _) (min_le_right a s)
    · exact ih _ s h

theorem scaleSample_zero : scaleSample 0 0 0 = 0 := by decide

/-- C7: a WAV whose decoded samples are all zero normalizes without any
division-by-zero failure to the hound re-encoding of the same all-zero
(silent) samples; and whenever the positive peak is `0` there is no
positive sample at all, so positive samples vacuously pass through. -/
theorem c7_all_zero_normalizes_silent :
    (∀ (bytes : List Nat) (spec : WavSpecM) (samples : List Int),
      houndRead bytes = some (spec, samples) → (∀ s ∈ samples, s = 0) →
      normalize_wav_volume bytes = some (houndWrite spec samples)) ∧
    (∀ l : List Int, l.foldl (fun a b => max a b) 0 = 0 → ∀ s ∈ l, ¬ 0 < s) := by
  constructor
  · intro bytes spec samples hread hz
    unfold normalize_wav_volume
    rw [hread]
    dsimp only
    have hmax : samples.foldl (fun a b => max a b) 0 = 0 :=
      le_antisymm (foldl_max_le samples 0 0 le_rfl fun s hs => (hz s hs).le) (le_foldl_max samples 0)
    have hmin : samples.foldl (fun a b => min a b) 0 = 0 :=
      le_antisymm (foldl_min_le samples 0) (le_foldl_min samples 0 0 le_rfl fun s hs => (hz s hs).ge)
    rw [hmax, hmin]
    have hmap : samples.map (fun s => scaleSample s 0 0) = samples := by
      have h1 : samples.map (fun s => scaleSample s 0 0) = samples.map id := by
        apply List.map_congr_left
        intro s hs
        simp [hz s hs, scaleSample_zero]
      rw [h1, List.map_id]
    rw [hmap]
  · intro l h s hs hpos
    have := mem_le_foldl_max l 0 s hs
    omega

/-- C7 witness: the theorem applied at a concrete all-zero two-sample WAV. -/
theorem c7_all_zero_normalizes_silent_witness :
    normalize_wav_volume (houndWrite ⟨1, 44100⟩ [0, 0]) =
      some (houndWrite ⟨1, 44100⟩ [0, 0]) :=
  c7_all_zero_normalizes_silent.1 (houndWrite ⟨1, 44100⟩ [0, 0]) ⟨1, 44100⟩ [0, 0]
    (by decide) (by decide)


theorem take_append_len {α : Type} (l₁ l₂ : List α) (n : Nat) (h : l₁.length = n) :
    (l₁ ++ l₂).take n = l₁ := by
  subst h
  exact List.take_left l₁ l₂

theorem drop_append_len {α : Type} (l₁ l₂ : List α) (n : Nat) (h : l₁.length = n) :
    (l₁ ++ l₂).drop n = l₂ := by
  subst h
  exact List.drop_left l₁ l₂

theorem readExact_at_pos (pre mid suf : List Nat) (p n : Nat) (hp : pre.length = p)
    (hn : mid.length = n) : readExact (pre ++ (mid ++ suf)) p n = some mid := by
  subst hp
  subst hn
  exact readExact_at pre mid suf

theorem readExact_at0 (mid suf : List Nat) (n : Nat) (hn : mid.length = n) :
    readExact (mid ++ suf) 0 n = some mid := by
  subst hn
  have h := readExact_at ([] : List Nat) mid suf
  simpa using h

theorem sampleBytes_length (samples : List Int) :
    ((samples.map fun s => le16enc (toU16 s)).flatten).length = 2 * samples.length := by
  induction samples with
  | nil => rfl
  | cons s rest ih =>
    simp only [List.map_cons, List.flatten_cons]
    rw [List.length_append, length_le16enc, ih]
    simp only [List.length_cons]
    omega

theorem houndWrite_length (spec : WavSpecM) (samples : List Int) :
    (houndWrite spec samples).length = 44 + 2 * samples.length := by
  simp only [houndWrite, List.length_append, length_le16enc, length_le32enc,
    List.length_cons, List.length_nil, sampleBytes_length]

theorem decodePairs_enc (samples : List Int) (h : ∀ s ∈ samples, -32768 ≤ s ∧ s ≤ 32767) :
    decodePairs ((samples.map fun s => le16enc (toU16 s)).flatten) = samples := by
  induction samples with
  | nil => simp [decodePairs]
  | cons s rest ih =>
    have hs := h s (by simp)
    simp only [List.map_cons, List.flatten_cons, le16enc, List.cons_append, List.nil_append]
    simp only [decodePairs]
    congr 1
    · have hlt : toU16 s < 65536 := by
        unfold toU16
        omega
      have hu : toU16 s % 256 + 256 * (toU16 s / 256 % 256) = toU16 s := by omega
      rw [hu]
      unfold toI16 toU16
      split <;> omega
    · exact ih fun t ht => h t (by simp [ht])

set_option maxRecDepth 4000 in
theorem houndRead_houndWrite (ch rate : Nat) (samples : List Int)
    (hch : ch < 2 ^ 16) (hrate : rate < 2 ^ 32)
    (hn : 36 + 2 * samples.length < 2 ^ 32)
    (hrange : ∀ s ∈ samples, -32768 ≤ s ∧ s ≤ 32767) :
    houndRead (houndWrite ⟨ch, rate⟩ samples) = some (⟨ch, rate⟩, samples) := by
  have h2n : 2 * samples.length < 2 ^ 32 := by omega
  have hlen : (houndWrite ⟨ch, rate⟩ samples).length = 44 + 2 * samples.length :=
    houndWrite_length ⟨ch, rate⟩ samples
  have h1 : readExact (houndWrite ⟨ch, rate⟩ samples) 0 12 = some ([82, 73, 70, 70] ++ (le32enc (36 + 2 * samples.length) ++ ([87, 65, 86, 69]))) := by
    have hB : houndWrite ⟨ch, rate⟩ samples = ([82, 73, 70, 70] ++ (le32enc (36 + 2 * samples.length) ++ ([87, 65, 86, 69]))) ++ ([102, 109, 116, 32] ++ (le32enc 16 ++ (le16enc 1 ++ (le16enc ch ++ (le32enc rate ++ (le32enc (rate * ch * 2) ++ (le16enc (ch * 2) ++ (le16enc 16 ++ ([100, 97, 116, 97] ++ (le32enc (2 * samples.length) ++ ((samples.map fun s => le16enc (toU16 s)).flatten))))))))))) := by
      simp only [houndWrite, List.append_assoc, List.cons_append, List.nil_append]
    rw [hB]
    exact readExact_at0 _ _ _ (by simp [length_le32enc])
  have h2 : readExact (houndWrite ⟨ch, rate⟩ samples) 12 8 = some ([102, 109, 116, 32] ++ (le32enc 16)) := by
    have hB : houndWrite ⟨ch, rate⟩ samples = ([82, 73, 70, 70] ++ (le32enc (36 + 2 * samples.length) ++ ([87, 65, 86, 69]))) ++ (([102, 109, 116, 32] ++ (le32enc 16)) ++ (le16enc 1 ++ (le16enc ch ++ (le32enc rate ++ (le32enc (rate * ch * 2) ++ (le16enc (ch * 2) ++ (le16enc 16 ++ ([100, 97, 116, 97] ++ (le32enc (2 * samples.length) ++ ((samples.map fun s => le16enc (toU16 s)).flatten)))))))))) := by
      simp only [houndWrite, List.append_assoc, List.cons_append, List.nil_append]
    rw [hB]
    exact readExact_at_pos _ _ _ _ _ (by simp [length_le32enc]) (by simp [length_le32enc])
  have h3 : readExact (houndWrite ⟨ch, rate⟩ samples) 20 16 = some (le16enc 1 ++ (le16enc ch ++ (le32enc rate ++ (le32enc (rate * ch * 2) ++ (le16enc (ch * 2) ++ (le16enc 16)))))) := by
    have hB : houndWrite ⟨ch, rate⟩ samples = (([82, 73, 70, 70] ++ (le32enc (36 + 2 * samples.length) ++ ([87, 65, 86, 69]))) ++ ([102, 109, 116, 32] ++ (le32enc 16))) ++
        ((le16enc 1 ++ (le16enc ch ++ (le32enc rate ++ (le32enc (rate * ch * 2) ++ (le16enc (ch * 2) ++ (le16enc 16)))))) ++ ([100, 97, 116, 97] ++ (le32enc (2 * samples.length) ++ ((samples.map fun s => le16enc (toU16 s)).flatten)))) := by
      simp only [houndWrite, List.append_assoc, List.cons_append, List.nil_append]
    rw [hB]
    exact readExact_at_pos _ _ _ _ _ (by simp [length_le32enc])
      (by simp [length_le16enc, length_le32enc])
  have h4 : readExact (houndWrite ⟨ch, rate⟩ samples) 36 8 = some ([100, 97, 116, 97] ++ (le32enc (2 * samples.length))) := by
    have hB : houndWrite ⟨ch, rate⟩ samples = ((([82, 73, 70, 70] ++ (le32enc (36 + 2 * samples.length) ++ ([87, 65, 86, 69]))) ++ ([102, 109, 116, 32] ++ (le32enc 16))) ++ (le16enc 1 ++ (le16enc ch ++ (le32enc rate ++ (le32enc (rate * ch * 2) ++ (le16enc (ch * 2) ++ (le16enc 16))))))) ++
        (([100, 97, 116, 97] ++ (le32enc (2 * samples.length))) ++ ((samples.map fun s => le16enc (toU16 s)).flatten)) := by
      simp only [houndWrite, List.append_assoc, List.cons_append, List.nil_append]
    rw [hB]
    exact readExact_at_pos _ _ _ _ _ (by simp [length_le16enc, length_le32enc])
      (by simp [length_le32enc])
  have h5 : (houndWrite ⟨ch, rate⟩ samples).drop 44 = (samples.map fun s => le16enc (toU16 s)).flatten := by
    have hB : houndWrite ⟨ch, rate⟩ samples = (((([82, 73, 70, 70] ++ (le32enc (36 + 2 * samples.length) ++ ([87, 65, 86, 69]))) ++ ([102, 109, 116, 32] ++ (le32enc 16))) ++ (le16enc 1 ++ (le16enc ch ++ (le32enc rate ++ (le32enc (rate * ch * 2) ++ (le16enc (ch * 2) ++ (le16enc 16))))))) ++
        ([100, 97, 116, 97] ++ (le32enc (2 * samples.length)))) ++ ((samples.map fun s => le16enc (toU16 s)).flatten) := by
      simp only [houndWrite, List.append_assoc, List.cons_append, List.nil_append]
    rw [hB]
    exact drop_append_len _ _ _ (by simp [length_le16enc, length_le32enc])
  have htk1 : ([82, 73, 70, 70] ++ (le32enc (36 + 2 * samples.length) ++ ([87, 65, 86, 69]))).take 4 = [82, 73, 70, 70] := by
    rw [List.take_append_of_le_length (by simp)]
    decide
  have hdp1 : ([82, 73, 70, 70] ++ (le32enc (36 + 2 * samples.length) ++ ([87, 65, 86, 69]))).drop 8 = [87, 65, 86, 69] := by
    have he : [82, 73, 70, 70] ++ (le32enc (36 + 2 * samples.length) ++ ([87, 65, 86, 69])) = ([82, 73, 70, 70] ++ le32enc (36 + 2 * samples.length)) ++
        [87, 65, 86, 69] := by
      simp [List.append_assoc]
    rw [he]
    exact drop_append_len _ _ _ (by simp [length_le32enc])
  have htk2 : ([102, 109, 116, 32] ++ (le32enc 16)).take 4 = [102, 109, 116, 32] := by
    rw [List.take_append_of_le_length (by simp)]
    decide
  have hdp2 : ([102, 109, 116, 32] ++ (le32enc 16)).drop 4 = le32enc 16 :=
    drop_append_len _ _ _ rfl
  have hs16 : le32 (le32enc 16) = 16 := le32_le32enc 16 (by norm_num)
  have htkFB : (le16enc 1 ++ (le16enc ch ++ (le32enc rate ++ (le32enc (rate * ch * 2) ++ (le16enc (ch * 2) ++ (le16enc 16)))))).take 2 = le16enc 1 :=
    take_append_len _ _ _ rfl
  have hd14 : (le16enc 1 ++ (le16enc ch ++ (le32enc rate ++ (le32enc (rate * ch * 2) ++ (le16enc (ch * 2) ++ (le16enc 16)))))).drop 14 = le16enc 16 := by
    have he : le16enc 1 ++ (le16enc ch ++ (le32enc rate ++ (le32enc (rate * ch * 2) ++ (le16enc (ch * 2) ++ (le16enc 16))))) = (le16enc 1 ++ (le16enc ch ++ (le32enc rate ++
        (le32enc (rate * ch * 2) ++ le16enc (ch * 2))))) ++ le16enc 16 := by
      simp [List.append_assoc]
    rw [he]
    exact drop_append_len _ _ _ (by simp [length_le16enc, length_le32enc])
  have htk16 : (le16enc 16).take 2 = le16enc 16 := by
    rw [← length_le16enc 16]
    exact List.take_length _
  have hd2 : (le16enc 1 ++ (le16enc ch ++ (le32enc rate ++ (le32enc (rate * ch * 2) ++ (le16enc (ch * 2) ++ (le16enc 16)))))).drop 2 = le16enc ch ++ (le32enc rate ++ (le32enc (rate * ch * 2) ++ (le16enc (ch * 2) ++ (le16enc 16)))) :=
    drop_append_len _ _ _ rfl
  have htkch : (le16enc ch ++ (le32enc rate ++ (le32enc (rate * ch * 2) ++ (le16enc (ch * 2) ++ (le16enc 16))))).take 2 = le16enc ch :=
    take_append_len _ _ _ rfl
  have hd4 : (le16enc 1 ++ (le16enc ch ++ (le32enc rate ++ (le32enc (rate * ch * 2) ++ (le16enc (ch * 2) ++ (le16enc 16)))))).drop 4 = le32enc rate ++ (le32enc (rate * ch * 2) ++ (le16enc (ch * 2) ++ (le16enc 16))) := by
    have he : le16enc 1 ++ (le16enc ch ++ (le32enc rate ++ (le32enc (rate * ch * 2) ++ (le16enc (ch * 2) ++ (le16enc 16))))) = (le16enc 1 ++ le16enc ch) ++ (le32enc rate ++ (le32enc (rate * ch * 2) ++ (le16enc (ch * 2) ++ (le16enc 16)))) := by
      simp [List.append_assoc]
    rw [he]
    exact drop_append_len _ _ _ (by simp [length_le16enc])
  have htkrate : (le32enc rate ++ (le32enc (rate * ch * 2) ++ (le16enc (ch * 2) ++ (le16enc 16)))).take 4 = le32enc rate :=
    take_append_len _ _ _ rfl
  have htk4d : ([100, 97, 116, 97] ++ (le32enc (2 * samples.length))).take 4 = [100, 97, 116, 97] := by
    rw [List.take_append_of_le_length (by simp)]
    decide
  have hdp4d : ([100, 97, 116, 97] ++ (le32enc (2 * samples.length))).drop 4 = le32enc (2 * samples.length) :=
    drop_append_len _ _ _ rfl
  have hSBtake : ((samples.map fun s => le16enc (toU16 s)).flatten).take (2 * samples.length) = (samples.map fun s => le16enc (toU16 s)).flatten := by
    rw [← sampleBytes_length samples]
    exact List.take_length _
  unfold houndRead
  rw [h1]
  dsimp only
  rw [if_pos ⟨htk1, hdp1⟩, hlen]
  simp only [houndScan]
  rw [h2]
  dsimp only
  rw [if_pos htk2, hdp2, hs16]
  have e20 : (12 : Nat) + 8 = 20 := by norm_num
  rw [e20, h3]
  dsimp only
  rw [htkFB, hd14, htk16, hd2, htkch, hd4, htkrate]
  rw [if_pos ?hcond]
  case hcond =>
    refine ⟨by norm_num, ?_, ?_⟩
    · rw [le16_le16enc]
    · rw [le16_le16enc]
  have e36 : (12 : Nat) + 8 + 16 = 36 := by norm_num
  rw [e36]
  have hch16 : le16 (le16enc ch) = ch := by
    rw [le16_le16enc]
    omega
  have hrate32 : le32 (le32enc rate) = rate := le32_le32enc rate hrate
  rw [hch16, hrate32]
  have hf : 44 + 2 * samples.length = (43 + 2 * samples.length) + 1 := by omega
  rw [hf]
  simp only [houndScan]
  rw [h4]
  dsimp only
  rw [htk4d, hdp4d]
  rw [if_neg (by decide)]
  rw [if_pos rfl]
  rw [le32_le32enc _ h2n, hlen]
  rw [if_pos (by omega)]
  have e44 : (36 : Nat) + 8 = 44 := by norm_num
  rw [e44, h5, hSBtake, decodePairs_enc samples hrange]

theorem scaleSample_id (s : Int) (h1 : -32768 ≤ s) (h2 : s ≤ 32767) :
    scaleSample s 32767 (-32768) = s := by
  unfold scaleSample
  by_cases hpos : 0 < s
  · rw [if_pos hpos, if_neg (by norm_num : (32767 : Int) ≠ 0)]
    unfold truncSatI16
    have hc : (s : ℚ) / ((32767 : Int) : ℚ) * 32767 = (s : ℚ) := by
      have h32 : ((32767 : Int) : ℚ) = (32767 : ℚ) := by norm_num
      rw [h32, div_mul_cancel₀ _ (by norm_num : (32767 : ℚ) ≠ 0)]
    rw [hc, if_pos (by exact_mod_cast hpos.le), Int.floor_intCast,
      min_eq_right h2, max_eq_right h1]
  · rw [if_neg hpos, if_neg (by norm_num : (-32768 : Int) ≠ 0)]
    unfold truncSatI16
    have hc : (s : ℚ) / ((-32768 : Int) : ℚ) * (-32768) = (s : ℚ) := by
      have h32 : ((-32768 : Int) : ℚ) = (-32768 : ℚ) := by norm_num
      rw [h32, div_mul_cancel₀ _ (by norm_num : (-32768 : ℚ) ≠ 0)]
    rw [hc]
    by_cases hz : (0 : ℚ) ≤ (s : ℚ)
    · rw [if_pos hz, Int.floor_intCast, min_eq_right h2, max_eq_right h1]
    · rw [if_neg hz, Int.ceil_intCast, min_eq_right h2, max_eq_right h1]

/-- C8 counterexample: the claim as stated is false.  `wavJunk` is a WAV
whose samples attain `i16::MAX` and `i16::MIN` (already fully normalized),
but it carries a `JUNK` chunk between fmt and data; `normalize_wav_volume`
re-encodes through the hound writer, which emits a canonical container
without that chunk, so the output is not byte-identical to the input. -/
theorem c8_fixed_point_counterexample :
    normalize_wav_volume wavJunk = some (houndWrite ⟨1, 44100⟩ [32767, -32768]) ∧
    houndWrite ⟨1, 44100⟩ [32767, -32768] ≠ wavJunk := by
  constructor
  · have hread : houndRead wavJunk = some (⟨1, 44100⟩, [32767, -32768]) := by decide
    unfold normalize_wav_volume
    rw [hread]
    dsimp only
    have hmax : ([32767, -32768] : List Int).foldl (fun a b => max a b) 0 = 32767 := by decide
    have hmin : ([32767, -32768] : List Int).foldl (fun a b => min a b) 0 = -32768 := by decide
    rw [hmax, hmin]
    have hmap : ([32767, -32768] : List Int).map (fun s => scaleSample s 32767 (-32768)) =
        [32767, -32768] := by
      simp only [List.map_cons, List.map_nil]
      rw [scaleSample_id 32767 (by norm_num) (by norm_num),
        scaleSample_id (-32768) (by norm_num) (by norm_num)]
    rw [hmap]
  · decide

/-- C8 (amended): on a canonical-layout WAV — one the hound writer itself
produced — whose samples attain both `i16::MAX = 32767` and
`i16::MIN = -32768`, `normalize_wav_volume` returns a byte-identical
buffer: the decoded samples rescale to themselves and re-encode to the same
bytes. -/
theorem c8_canonical_fixed_point (ch rate : Nat) (samples : List Int)
    (hch : ch < 2 ^ 16) (hrate : rate < 2 ^ 32) (hn : 36 + 2 * samples.length < 2 ^ 32)
    (hrange : ∀ s ∈ samples, -32768 ≤ s ∧ s ≤ 32767)
    (hmaxmem : (32767 : Int) ∈ samples) (hminmem : (-32768 : Int) ∈ samples) :
    normalize_wav_volume (houndWrite ⟨ch, rate⟩ samples) =
      some (houndWrite ⟨ch, rate⟩ samples) := by
  unfold normalize_wav_volume
  rw [houndRead_houndWrite ch rate samples hch hrate hn hrange]
  dsimp only
  have hmax : samples.foldl (fun a b => max a b) 0 = 32767 :=
    le_antisymm (foldl_max_le samples 0 32767 (by norm_num) fun s hs => (hrange s hs).2)
      (mem_le_foldl_max samples 0 32767 hmaxmem)
  have hmin : samples.foldl (fun a b => min a b) 0 = -32768 :=
    le_antisymm (foldl_min_le_mem samples 0 (-32768) hminmem)
      (le_foldl_min samples 0 (-32768) (by norm_num) fun s hs => (hrange s hs).1)
  rw [hmax, hmin]
  have hmap : samples.map (fun s => scaleSample s 32767 (-32768)) = samples := by
    have h1 : samples.map (fun s => scaleSample s 32767 (-32768)) = samples.map id := by
      apply List.map_congr_left
      intro s hs
      rw [scaleSample_id s (hrange s hs).1 (hrange s hs).2]
      rfl
    rw [h1, List.map_id]
  rw [hmap]

/-- C8 witness: the fixed-point theorem applied at a concrete two-sample
full-range WAV. -/
theorem c8_canonical_fixed_point_witness :
    normalize_wav_volume (houndWrite ⟨1, 44100⟩ [32767, -32768]) =
      some (houndWrite ⟨1, 44100⟩ [32767, -32768]) :=
  c8_canonical_fixed_point 1 44100 [32767, -32768] (by norm_num) (by norm_num)
    (by decide) (by decide) (by decide) (by decide)
